import Mathlib

/-!
Wake-on-RF magic packet filter: a shallow embedding of `magic_packet.c` /
`magic_packet.h`.

Modelling conventions:

* machine integers are natural numbers; the only arithmetic that can wrap in the
  source, the pre-increment of the 8-bit sequence counter, carries an explicit
  `% 256`;
* a byte buffer is a `List Nat`; 16-bit fields are read and written in
  little-endian byte order (the packed header is copied with `memcpy` on a
  little-endian target);
* a pointer into a buffer is the buffer together with an offset; the caller's
  packet buffer is disjoint from the module's two static scratch buffers;
* the module's static variables are the fields of `State`; every operation
  takes the state and returns the new one;
* `magicPacketCallback` is the host's hook: each call is recorded, in order, as
  a `CallbackCall` carrying the event kind and a snapshot of the bytes its
  `data` pointer refers to at the time of the call (`none` for `NULL`).
-/

namespace MagicPacket

/-! ## Constants -/

def MAX_PAYLOAD_LENGTH : Nat := 128
def MAX_EVENT_DATA_LENGTH : Nat := 20

def HEADER_802154_LENGTH : Nat := 9
def HEADER_802154_FC_SHIFT : Nat := 0
def HEADER_802154_SEQ_SHIFT : Nat := 2
def HEADER_802154_PANID_SHIFT : Nat := 3
def HEADER_802154_DEST_SHIFT : Nat := 5
def HEADER_802154_SRC_SHIFT : Nat := 7

def CRC_802154_LENGTH : Nat := 2

def MAGIC_PACKET_FC : Nat := 0x9841
def MAGIC_PACKET_SRC_ADDRESS : Nat := 0xFFFF
def MAGIC_PACKET_DEST_ADDRESS : Nat := 0xFFFF

def MAGIC_PACKET_PAYLOAD_LENGTH : Nat := 3
def MAGIC_PACKET_DEFAULT_TTL : Nat := 0x3

/-! ## Types -/

inductive MagicPacketError_t where
  | MAGIC_PACKET_SUCCESS
  | MAGIC_PACKET_ERROR_FATAL
  | MAGIC_PACKET_ERROR_DROPPED
  | MAGIC_PACKET_ERROR_DUPLICATE
  | MAGIC_PACKET_ERROR_DISABLED
  deriving DecidableEq

inductive MagicPacketCallbackEvent_t where
  | MAGIC_PACKET_EVENT_ENABLED
  | MAGIC_PACKET_EVENT_DISABLED
  | MAGIC_PACKET_EVENT_WAKE_RX
  | MAGIC_PACKET_EVENT_TX
  deriving DecidableEq

open MagicPacketError_t MagicPacketCallbackEvent_t

/-- The payload used to enable the filter: `uint16_t panId; uint8_t channel;
uint8_t borderRouter;` (four bytes, no padding). -/
structure MagicPacketEnablePayload_t where
  panId : Nat
  channel : Nat
  borderRouter : Nat
  deriving DecidableEq

/-- The three-byte application payload of a magic packet. -/
structure MagicPacketPayload_t where
  frameCounter : Nat
  status : Nat
  timeToLive : Nat
  deriving DecidableEq

/-- The packed nine-byte 802.15.4 header. -/
structure IEEE802154_Header_t where
  frameControl : Nat
  seqNumber : Nat
  panID : Nat
  dstAddress : Nat
  srcAddress : Nat
  deriving DecidableEq

/-- The file-scope variables of `magic_packet.c`. -/
structure State where
  filterEnabled_g : Nat
  amBorderRouter_g : Nat
  monitoredChannel_g : Nat
  panId_g : Nat
  header154LastFC_g : Nat
  magicPacketLastFC_g : Nat
  txBuffer : List Nat
  eventBuffer : List Nat
  deriving DecidableEq

/-- The values the static initialisers give. -/
def State.init : State where
  filterEnabled_g := 0
  amBorderRouter_g := 0
  monitoredChannel_g := 0
  panId_g := 0xFFFF
  header154LastFC_g := 0xFF
  magicPacketLastFC_g := 0xFF
  txBuffer := List.replicate MAX_PAYLOAD_LENGTH 0x00
  eventBuffer := List.replicate MAX_EVENT_DATA_LENGTH 0x00

/-- The static arrays have their declared sizes. -/
def State.sized (s : State) : Prop :=
  s.txBuffer.length = MAX_PAYLOAD_LENGTH ∧ s.eventBuffer.length = MAX_EVENT_DATA_LENGTH

instance (s : State) : Decidable s.sized := by
  unfold State.sized; infer_instance

/-- One invocation of `magicPacketCallback(event, data)`. -/
structure CallbackCall where
  event : MagicPacketCallbackEvent_t
  data : Option (List Nat)
  deriving DecidableEq

/-! ## Byte-level helpers -/

/-- The byte at `buf + off`. -/
def rd8 (buf : List Nat) (off : Nat) : Nat := buf.getD off 0

/-- The little-endian `uint16_t` at `buf + off`. -/
def rd16 (buf : List Nat) (off : Nat) : Nat := buf.getD off 0 + 256 * buf.getD (off + 1) 0

/-- The model of `memcpy(dst + off, src, n)`: the first `n` bytes of `src` are stored at
`dst[off], dst[off+1], ...`. -/
def memcpy (dst : List Nat) (off : Nat) (src : List Nat) : Nat → List Nat
  | 0 => dst
  | n + 1 =>
    match src with
    | [] => dst
    | b :: bs => memcpy (dst.set off b) (off + 1) bs n

/-- The object representation of the packed header. -/
def IEEE802154_Header_t.bytes (h : IEEE802154_Header_t) : List Nat :=
  [h.frameControl % 256, h.frameControl / 256 % 256,
   h.seqNumber,
   h.panID % 256, h.panID / 256 % 256,
   h.dstAddress % 256, h.dstAddress / 256 % 256,
   h.srcAddress % 256, h.srcAddress / 256 % 256]

/-- The object representation of the application payload. -/
def MagicPacketPayload_t.bytes (p : MagicPacketPayload_t) : List Nat :=
  [p.frameCounter, p.status, p.timeToLive]

/-- The object representation of the enable payload. -/
def MagicPacketEnablePayload_t.bytes (c : MagicPacketEnablePayload_t) : List Nat :=
  [c.panId % 256, c.panId / 256 % 256, c.channel, c.borderRouter]

/-- The view `(MagicPacketPayload_t *)(buf + off)`. -/
def payloadAt (buf : List Nat) (off : Nat) : MagicPacketPayload_t where
  frameCounter := rd8 buf off
  status := rd8 buf (off + 1)
  timeToLive := rd8 buf (off + 2)

/-- The view `(MagicPacketEnablePayload_t *)buf`. -/
def enablePayloadAt (buf : List Nat) : MagicPacketEnablePayload_t where
  panId := rd16 buf 0
  channel := rd8 buf 2
  borderRouter := rd8 buf 3

/-- The header fields as `decodeMagicPacket` extracts them from the packet buffer. -/
def headerAt (packetBuffer_a : List Nat) : IEEE802154_Header_t where
  frameControl := rd16 packetBuffer_a HEADER_802154_FC_SHIFT
  seqNumber := rd8 packetBuffer_a HEADER_802154_SEQ_SHIFT
  panID := rd16 packetBuffer_a HEADER_802154_PANID_SHIFT
  dstAddress := rd16 packetBuffer_a HEADER_802154_DEST_SHIFT
  srcAddress := rd16 packetBuffer_a HEADER_802154_SRC_SHIFT

/-! ## Operations -/

/-- The embedding of `enableMagicPacketFilter`. -/
def enableMagicPacketFilter (s : State) (enablePayload_a : MagicPacketEnablePayload_t) :
    State × List CallbackCall :=
  let s1 : State :=
    { s with
      panId_g := enablePayload_a.panId
      monitoredChannel_g := enablePayload_a.channel
      amBorderRouter_g := enablePayload_a.borderRouter
      filterEnabled_g := 1 }
  let s2 : State :=
    { s1 with
      eventBuffer := memcpy s1.eventBuffer 0 enablePayload_a.bytes MAGIC_PACKET_PAYLOAD_LENGTH }
  (s2, [⟨MAGIC_PACKET_EVENT_ENABLED, some s2.eventBuffer⟩])

/-- The embedding of `disableMagicPacketFilter`. -/
def disableMagicPacketFilter (s : State) : State × List CallbackCall :=
  let s1 : State :=
    { s with
      filterEnabled_g := 0
      amBorderRouter_g := 0
      panId_g := 0xFFFF }
  (s1, [⟨MAGIC_PACKET_EVENT_DISABLED, none⟩])

/-- The embedding of `createMagicPacket`: returns the new module state and the caller's
buffer after the two copies. -/
def createMagicPacket (s : State) (srcAddress_a destAddress_a panID_a : Nat)
    (packetBuffer_a : List Nat) (magicPayload_a : MagicPacketPayload_t) : State × List Nat :=
  let s1 : State := { s with header154LastFC_g := (s.header154LastFC_g + 1) % 256 }
  let header : IEEE802154_Header_t :=
    { frameControl := MAGIC_PACKET_FC
      seqNumber := s1.header154LastFC_g
      panID := panID_a
      dstAddress := destAddress_a
      srcAddress := srcAddress_a }
  let b1 := memcpy packetBuffer_a 0 header.bytes HEADER_802154_LENGTH
  let b2 := memcpy b1 HEADER_802154_LENGTH magicPayload_a.bytes MAGIC_PACKET_PAYLOAD_LENGTH
  (s1, b2)

/-- The embedding of `validateMagicPayloadFC`. -/
def validateMagicPayloadFC (s : State) (magicPayload_a : MagicPacketPayload_t) : Nat :=
  if magicPayload_a.frameCounter > s.magicPacketLastFC_g
      ∨ (magicPayload_a.frameCounter ≥ 0 ∧ s.magicPacketLastFC_g = 0xFF) then
    1
  else
    0

/-- The embedding of `retransmitMagicPacket`: the frame is built at `&txBuffer[1]`, the
length byte is stored at `txBuffer[0]`, and the TX event is raised on `txBuffer`. -/
def retransmitMagicPacket (s : State) (magicPayload_a : MagicPacketPayload_t) :
    State × List CallbackCall :=
  let r := createMagicPacket s MAGIC_PACKET_SRC_ADDRESS MAGIC_PACKET_DEST_ADDRESS s.panId_g
    (s.txBuffer.drop 1) magicPayload_a
  let s1 : State := { r.1 with txBuffer := s.txBuffer.take 1 ++ r.2 }
  let s2 : State :=
    { s1 with
      txBuffer := s1.txBuffer.set 0
        (HEADER_802154_LENGTH + MAGIC_PACKET_PAYLOAD_LENGTH + CRC_802154_LENGTH) }
  (s2, [⟨MAGIC_PACKET_EVENT_TX, some s2.txBuffer⟩])

/-- What a call of `decodeMagicPacket` leaves behind: the returned code, the module state,
the caller's buffer, and the callbacks made, in order. -/
structure DecodeResult where
  ret : MagicPacketError_t
  state : State
  packetBuffer : List Nat
  events : List CallbackCall
  deriving DecidableEq

/-- The embedding of `decodeMagicPacket`. -/
def decodeMagicPacket (s : State) (packetBuffer_a : List Nat) : DecodeResult :=
  let header := headerAt packetBuffer_a
  if s.filterEnabled_g ≠ 0 then
    let s1 : State := { s with header154LastFC_g := header.seqNumber }
    if MAGIC_PACKET_FC = header.frameControl
        ∧ s1.panId_g = header.panID
        ∧ MAGIC_PACKET_SRC_ADDRESS = header.srcAddress
        ∧ MAGIC_PACKET_DEST_ADDRESS = header.dstAddress
        ∧ validateMagicPayloadFC s1 (payloadAt packetBuffer_a HEADER_802154_LENGTH) ≠ 0 then
      if (payloadAt packetBuffer_a HEADER_802154_LENGTH).timeToLive > 0 then
        let buf1 := packetBuffer_a.set (HEADER_802154_LENGTH + 2)
          ((payloadAt packetBuffer_a HEADER_802154_LENGTH).timeToLive - 1)
        let r := retransmitMagicPacket s1 (payloadAt buf1 HEADER_802154_LENGTH)
        let s3 : State :=
          { r.1 with
            eventBuffer := memcpy r.1.eventBuffer 0
              (payloadAt buf1 HEADER_802154_LENGTH).bytes MAGIC_PACKET_PAYLOAD_LENGTH }
        { ret := MAGIC_PACKET_SUCCESS
          state := s3
          packetBuffer := buf1
          events := r.2 ++ [⟨MAGIC_PACKET_EVENT_WAKE_RX, some s3.eventBuffer⟩] }
      else
        let s3 : State :=
          { s1 with
            eventBuffer := memcpy s1.eventBuffer 0
              (payloadAt packetBuffer_a HEADER_802154_LENGTH).bytes MAGIC_PACKET_PAYLOAD_LENGTH }
        { ret := MAGIC_PACKET_SUCCESS
          state := s3
          packetBuffer := packetBuffer_a
          events := [⟨MAGIC_PACKET_EVENT_WAKE_RX, some s3.eventBuffer⟩] }
    else
      { ret := MAGIC_PACKET_ERROR_DROPPED
        state := s1
        packetBuffer := packetBuffer_a
        events := [] }
  else
    { ret := MAGIC_PACKET_ERROR_DISABLED
      state := s
      packetBuffer := packetBuffer_a
      events := [] }

/-! ## Observations on callback traces -/

/-- The calls of one event kind, in order. -/
def callsOf (k : MagicPacketCallbackEvent_t) (evs : List CallbackCall) : List CallbackCall :=
  evs.filter (fun e => e.event = k)

/-- The frame carried by a TX event buffer: everything after the length byte. -/
def txFrame (data : List Nat) : List Nat := data.drop 1

/-! ## Auxiliary definitions used in the statements -/

/-- The acceptance conditions as the specification lists them: frame-control word, PAN id,
source and destination addresses, and the freshness check. -/
def specAcceptance (s : State) (buf : List Nat) : Prop :=
  rd16 buf 0 = 0x9841
    ∧ rd16 buf 3 = s.panId_g
    ∧ rd16 buf 7 = 0xFFFF
    ∧ rd16 buf 5 = 0xFFFF
    ∧ (rd8 buf 9 > s.magicPacketLastFC_g ∨ s.magicPacketLastFC_g = 0xFF)

instance (s : State) (buf : List Nat) : Decidable (specAcceptance s buf) := by
  unfold specAcceptance; infer_instance

/-- The transmit scratch buffer after a relay of payload `p`: the length byte, the twelve
frame bytes, then the old contents from index 13 on. -/
def relayImage (s : State) (p : MagicPacketPayload_t) : List Nat :=
  [14, 0x41, 0x98, (s.header154LastFC_g + 1) % 256, s.panId_g % 256, s.panId_g / 256 % 256,
    0xFF, 0xFF, 0xFF, 0xFF, p.frameCounter, p.status, p.timeToLive] ++ s.txBuffer.drop 13

/-- The received payload with its time-to-live decremented. -/
def relayedPayload (buf : List Nat) : MagicPacketPayload_t :=
  ⟨rd8 buf 9, rd8 buf 10, rd8 buf 11 - 1⟩

/-- The payloads of the frames carried by the TX calls, in order. -/
def txPayloads (evs : List CallbackCall) : List (Option MagicPacketPayload_t) :=
  (callsOf MAGIC_PACKET_EVENT_TX evs).map
    (fun e => e.data.map (fun d => payloadAt (txFrame d) HEADER_802154_LENGTH))

/-- The payloads carried by the WAKE_RX calls, in order. -/
def wakePayloads (evs : List CallbackCall) : List (Option MagicPacketPayload_t) :=
  (callsOf MAGIC_PACKET_EVENT_WAKE_RX evs).map (fun e => e.data.map (fun d => payloadAt d 0))

/-- The filter configuration held in the state: enabled flag, PAN id, monitored channel,
border-router flag. -/
def State.filterConfig (s : State) : Nat × Nat × Nat × Nat :=
  (s.filterEnabled_g, s.panId_g, s.monitoredChannel_g, s.amBorderRouter_g)

/-! ## The concrete scenario -/

/-- PAN 0x1234, channel 11, border router. -/
def scenarioConfig : MagicPacketEnablePayload_t := ⟨0x1234, 11, 1⟩

/-- The initial state after `enableMagicPacketFilter` with `scenarioConfig`. -/
def scenarioEnabled : State := (enableMagicPacketFilter State.init scenarioConfig).1

/-- The call `createMagicPacket(0xFFFF, 0xFFFF, 0x1234, buf, {1, 0, ttl})` on the enabled
module, into a zeroed twelve-byte buffer: the state it leaves and the frame. -/
def scenarioCreated (ttl : Nat) : State × List Nat :=
  createMagicPacket scenarioEnabled 0xFFFF 0xFFFF 0x1234 (List.replicate 12 0) ⟨1, 0, ttl⟩

/-- The scenario's decode call: the frame just created is handed to `decodeMagicPacket`. -/
def scenarioDecoded (ttl : Nat) : DecodeResult :=
  decodeMagicPacket (scenarioCreated ttl).1 (scenarioCreated ttl).2

/-! ## Sequences of calls -/

/-- One call of a public operation, with its arguments. -/
inductive Call where
  | enable (enablePayload_a : MagicPacketEnablePayload_t)
  | disable
  | create (srcAddress_a destAddress_a panID_a : Nat) (packetBuffer_a : List Nat)
      (magicPayload_a : MagicPacketPayload_t)
  | decode (packetBuffer_a : List Nat)

/-- The module state after one call, and the callbacks the call made (`createMagicPacket`
contains no call of `magicPacketCallback`). -/
def Call.step (s : State) : Call → State × List CallbackCall
  | .enable c => enableMagicPacketFilter s c
  | .disable => disableMagicPacketFilter s
  | .create src dst pan buf p => ((createMagicPacket s src dst pan buf p).1, [])
  | .decode buf => ((decodeMagicPacket s buf).state, (decodeMagicPacket s buf).events)

/-- The module state after a sequence of calls. -/
def runCalls (s : State) : List Call → State
  | [] => s
  | c :: cs => runCalls (Call.step s c).1 cs

/-- The frame a hop puts on the air: bytes 1..12 of the buffer of its TX callback, if it
made one. -/
def nextFrame (r : DecodeResult) : Option (List Nat) :=
  match callsOf MAGIC_PACKET_EVENT_TX r.events with
  | ⟨_, some d⟩ :: _ => some ((txFrame d).take 12)
  | _ => none

/-- The relay chain: hop `k` is `decodeMagicPacket` on the node in state `node k`; the frame
of its TX callback goes to hop `k + 1`. The chain ends at the first hop without a TX
callback, or after `fuel` hops. -/
def relayChain (node : Nat → State) : Nat → Nat → List Nat → List DecodeResult
  | 0, _, _ => []
  | fuel + 1, k, frame =>
    match nextFrame (decodeMagicPacket (node k) frame) with
    | some f => decodeMagicPacket (node k) frame :: relayChain node fuel (k + 1) f
    | none => [decodeMagicPacket (node k) frame]

/-- A buffer holding a wake frame for PAN `p` with payload `(fc, st, t)`. -/
def wakeFrame (p fc st t : Nat) (frame : List Nat) : Prop :=
  12 ≤ frame.length
    ∧ rd16 frame 0 = 0x9841
    ∧ rd16 frame 3 = p
    ∧ rd16 frame 7 = 0xFFFF
    ∧ rd16 frame 5 = 0xFFFF
    ∧ payloadAt frame 9 = ⟨fc, st, t⟩

/-- A node that relays for PAN `p`: enabled with that PAN id, freshness tracker at the
sentinel, transmit buffer of the declared size. -/
def relayNode (p : Nat) (s : State) : Prop :=
  s.filterEnabled_g ≠ 0 ∧ s.panId_g = p ∧ s.magicPacketLastFC_g = 0xFF ∧ s.sized

/-! ## Lemmas on the byte-level helpers -/

theorem memcpy_length (dst : List Nat) (off : Nat) (src : List Nat) (n : Nat) :
    (memcpy dst off src n).length = dst.length := by
  induction n generalizing dst off src with
  | zero => simp [memcpy]
  | succ n ih =>
    cases src with
    | nil => simp [memcpy]
    | cons b bs => simp [memcpy, ih]

/-- A copy that fits replaces exactly the bytes `off .. off + n - 1` of the destination. -/
theorem memcpy_eq (dst : List Nat) (off : Nat) (src : List Nat) (n : Nat)
    (hd : off + n ≤ dst.length) (hs : n ≤ src.length) :
    memcpy dst off src n = dst.take off ++ src.take n ++ dst.drop (off + n) := by
  induction n generalizing dst off src with
  | zero => simp [memcpy]
  | succ n ih =>
    cases src with
    | nil => simp at hs
    | cons b bs =>
      have hlt : off < dst.length := by omega
      simp only [memcpy]
      rw [ih (dst.set off b) (off + 1) bs (by simp; omega) (by simpa using hs)]
      rw [List.set_eq_take_append_cons_drop, if_pos hlt]
      simp [List.take_append_eq_append_take, List.drop_append_eq_append_drop, List.take_take,
        Nat.min_eq_left (Nat.le_of_lt hlt)]
      have e1 : off + 1 + n - off = n + 1 := by omega
      have e2 : List.drop (off + 1 + n) (List.take off dst) = [] := by
        apply List.drop_eq_nil_of_le
        simp
        omega
      rw [e1, e2, List.drop_succ_cons, List.drop_drop, List.nil_append]
      congr 1
      omega

/-- The buffer `createMagicPacket` leaves: twelve frame bytes, then the caller's bytes from
index 12 on. -/
theorem createMagicPacket_buffer (s : State) (src dst pan : Nat) (buf : List Nat)
    (p : MagicPacketPayload_t) (hlen : 12 ≤ buf.length) :
    (createMagicPacket s src dst pan buf p).2 =
      [0x41, 0x98, (s.header154LastFC_g + 1) % 256, pan % 256, pan / 256 % 256,
        dst % 256, dst / 256 % 256, src % 256, src / 256 % 256,
        p.frameCounter, p.status, p.timeToLive] ++ buf.drop 12 := by
  simp only [createMagicPacket, HEADER_802154_LENGTH, MAGIC_PACKET_PAYLOAD_LENGTH]
  rw [memcpy_eq _ 9 _ 3 (by rw [memcpy_length]; omega) (by simp [MagicPacketPayload_t.bytes]),
    memcpy_eq _ 0 _ 9 (by omega) (by simp [IEEE802154_Header_t.bytes])]
  simp only [IEEE802154_Header_t.bytes, MagicPacketPayload_t.bytes, MAGIC_PACKET_FC]
  have h1 : (38977 : Nat) % 256 = 65 := by norm_num
  have h2 : (38977 : Nat) / 256 % 256 = 152 := by norm_num
  rw [h1, h2]
  simp only [List.take_zero, List.nil_append, Nat.zero_add]
  simp

theorem createMagicPacket_state (s : State) (src dst pan : Nat) (buf : List Nat)
    (p : MagicPacketPayload_t) :
    (createMagicPacket s src dst pan buf p).1 =
      { s with header154LastFC_g := (s.header154LastFC_g + 1) % 256 } := rfl

theorem rd16_split (x : Nat) (hx : x < 65536) : x % 256 + 256 * (x / 256 % 256) = x := by
  omega

theorem rd8_set_ne (buf : List Nat) (i j v : Nat) (h : i ≠ j) :
    rd8 (buf.set i v) j = rd8 buf j := by
  simp [rd8, List.getD_eq_getElem?_getD, List.getElem?_set_ne h]

theorem rd8_set_eq (buf : List Nat) (i v : Nat) (h : i < buf.length) :
    rd8 (buf.set i v) i = v := by
  simp [rd8, List.getD_eq_getElem?_getD, List.getElem?_set_self, h]

theorem rd16_set_ne (buf : List Nat) (i j v : Nat) (h : i ≠ j) (h1 : i ≠ j + 1) :
    rd16 (buf.set i v) j = rd16 buf j := by
  simp [rd16, List.getD_eq_getElem?_getD, List.getElem?_set_ne h, List.getElem?_set_ne h1]

theorem retransmitMagicPacket_eq (s : State) (p : MagicPacketPayload_t)
    (htx : 13 ≤ s.txBuffer.length) :
    retransmitMagicPacket s p =
      ({ s with
          header154LastFC_g := (s.header154LastFC_g + 1) % 256
          txBuffer := relayImage s p },
        [⟨MAGIC_PACKET_EVENT_TX, some (relayImage s p)⟩]) := by
  have hl : 12 ≤ (s.txBuffer.drop 1).length := by
    rw [List.length_drop]
    omega
  have hbuf := createMagicPacket_buffer s MAGIC_PACKET_SRC_ADDRESS MAGIC_PACKET_DEST_ADDRESS
    s.panId_g (s.txBuffer.drop 1) p hl
  have hst := createMagicPacket_state s MAGIC_PACKET_SRC_ADDRESS MAGIC_PACKET_DEST_ADDRESS
    s.panId_g (s.txBuffer.drop 1) p
  have e1 : MAGIC_PACKET_SRC_ADDRESS % 256 = 0xFF := by norm_num [MAGIC_PACKET_SRC_ADDRESS]
  have e2 : MAGIC_PACKET_SRC_ADDRESS / 256 % 256 = 0xFF := by
    norm_num [MAGIC_PACKET_SRC_ADDRESS]
  have e3 : MAGIC_PACKET_DEST_ADDRESS % 256 = 0xFF := by norm_num [MAGIC_PACKET_DEST_ADDRESS]
  have e4 : MAGIC_PACKET_DEST_ADDRESS / 256 % 256 = 0xFF := by
    norm_num [MAGIC_PACKET_DEST_ADDRESS]
  rw [e1, e2, e3, e4, List.drop_drop] at hbuf
  have himg : (s.txBuffer.take 1 ++ (createMagicPacket s MAGIC_PACKET_SRC_ADDRESS
      MAGIC_PACKET_DEST_ADDRESS s.panId_g (s.txBuffer.drop 1) p).2).set 0
        (HEADER_802154_LENGTH + MAGIC_PACKET_PAYLOAD_LENGTH + CRC_802154_LENGTH)
      = relayImage s p := by
    rw [hbuf]
    cases htxb : s.txBuffer with
    | nil => rw [htxb] at htx; simp at htx
    | cons t0 rest =>
      simp only [relayImage, htxb, List.take_succ_cons, List.take_zero, List.cons_append,
        List.nil_append, List.set_cons_zero, HEADER_802154_LENGTH, MAGIC_PACKET_PAYLOAD_LENGTH,
        CRC_802154_LENGTH]
  unfold retransmitMagicPacket
  simp only [himg, hst]

/-- The guard of the inner `if` of `decodeMagicPacket`, read on the state after the sequence
tracker has been overwritten, is the listed conjunction on the state before it. -/
theorem decode_guard_iff (s : State) (buf : List Nat) :
    (MAGIC_PACKET_FC = (headerAt buf).frameControl
        ∧ ({ s with header154LastFC_g := (headerAt buf).seqNumber } : State).panId_g
            = (headerAt buf).panID
        ∧ MAGIC_PACKET_SRC_ADDRESS = (headerAt buf).srcAddress
        ∧ MAGIC_PACKET_DEST_ADDRESS = (headerAt buf).dstAddress
        ∧ validateMagicPayloadFC { s with header154LastFC_g := (headerAt buf).seqNumber }
            (payloadAt buf HEADER_802154_LENGTH) ≠ 0)
      ↔ specAcceptance s buf := by
  simp only [specAcceptance, headerAt, payloadAt, validateMagicPayloadFC, MAGIC_PACKET_FC,
    MAGIC_PACKET_SRC_ADDRESS, MAGIC_PACKET_DEST_ADDRESS, HEADER_802154_LENGTH,
    HEADER_802154_FC_SHIFT, HEADER_802154_PANID_SHIFT, HEADER_802154_DEST_SHIFT,
    HEADER_802154_SRC_SHIFT]
  constructor
  · rintro ⟨h1, h2, h3, h4, h5⟩
    refine ⟨h1.symm, h2.symm, h3.symm, h4.symm, ?_⟩
    by_contra hc
    apply h5
    rw [if_neg]
    intro hh
    apply hc
    rcases hh with hh | hh
    · exact Or.inl hh
    · exact Or.inr hh.2
  · rintro ⟨h1, h2, h3, h4, h5⟩
    refine ⟨h1.symm, h2.symm, h3.symm, h4.symm, ?_⟩
    rw [if_pos]
    · decide
    · rcases h5 with hh | hh
      · exact Or.inl hh
      · exact Or.inr ⟨Nat.zero_le _, hh⟩

theorem decode_disabled (s : State) (buf : List Nat) (h : s.filterEnabled_g = 0) :
    decodeMagicPacket s buf =
      { ret := MAGIC_PACKET_ERROR_DISABLED, state := s, packetBuffer := buf, events := [] } := by
  simp [decodeMagicPacket, h]

theorem decode_dropped (s : State) (buf : List Nat) (h : s.filterEnabled_g ≠ 0)
    (hacc : ¬ specAcceptance s buf) :
    decodeMagicPacket s buf =
      { ret := MAGIC_PACKET_ERROR_DROPPED
        state := { s with header154LastFC_g := rd8 buf 2 }
        packetBuffer := buf
        events := [] } := by
  have hg := (decode_guard_iff s buf).not.mpr hacc
  unfold decodeMagicPacket
  rw [if_pos h, if_neg hg]
  rfl

theorem decode_ret_success (s : State) (buf : List Nat) (h : s.filterEnabled_g ≠ 0)
    (hacc : specAcceptance s buf) :
    (decodeMagicPacket s buf).ret = MAGIC_PACKET_SUCCESS := by
  have hg := (decode_guard_iff s buf).mpr hacc
  unfold decodeMagicPacket
  rw [if_pos h, if_pos hg]
  split <;> rfl

theorem payloadAt_decremented (buf : List Nat) (hlen : 12 ≤ buf.length) :
    payloadAt (buf.set (HEADER_802154_LENGTH + 2)
      ((payloadAt buf HEADER_802154_LENGTH).timeToLive - 1)) HEADER_802154_LENGTH
      = relayedPayload buf := by
  simp only [payloadAt, relayedPayload, HEADER_802154_LENGTH]
  rw [rd8_set_ne buf 11 9 _ (by decide), rd8_set_ne buf 11 10 _ (by decide),
    rd8_set_eq buf 11 _ (by omega)]

/-- An accepted frame with a positive time-to-live: the complete outcome of the call. -/
theorem decode_accept_relay (s : State) (buf : List Nat) (hen : s.filterEnabled_g ≠ 0)
    (hacc : specAcceptance s buf) (ht : 0 < rd8 buf 11) (hlen : 12 ≤ buf.length)
    (htx : 13 ≤ s.txBuffer.length) :
    decodeMagicPacket s buf =
      { ret := MAGIC_PACKET_SUCCESS
        state :=
          { s with
            header154LastFC_g := (rd8 buf 2 + 1) % 256
            txBuffer := relayImage { s with header154LastFC_g := rd8 buf 2 } (relayedPayload buf)
            eventBuffer := memcpy s.eventBuffer 0 (relayedPayload buf).bytes 3 }
        packetBuffer := buf.set 11 (rd8 buf 11 - 1)
        events :=
          [⟨MAGIC_PACKET_EVENT_TX,
              some (relayImage { s with header154LastFC_g := rd8 buf 2 } (relayedPayload buf))⟩,
            ⟨MAGIC_PACKET_EVENT_WAKE_RX,
              some (memcpy s.eventBuffer 0 (relayedPayload buf).bytes 3)⟩] } := by
  have hg := (decode_guard_iff s buf).mpr hacc
  have ht2 : (payloadAt buf HEADER_802154_LENGTH).timeToLive > 0 := ht
  unfold decodeMagicPacket
  rw [if_pos hen, if_pos hg, if_pos ht2]
  simp only [payloadAt_decremented buf hlen]
  rw [retransmitMagicPacket_eq _ _ (by exact htx)]
  rfl

/-- An accepted frame whose time-to-live is zero: the complete outcome of the call. -/
theorem decode_accept_no_relay (s : State) (buf : List Nat) (hen : s.filterEnabled_g ≠ 0)
    (hacc : specAcceptance s buf) (ht : rd8 buf 11 = 0) :
    decodeMagicPacket s buf =
      { ret := MAGIC_PACKET_SUCCESS
        state :=
          { s with
            header154LastFC_g := rd8 buf 2
            eventBuffer := memcpy s.eventBuffer 0 (payloadAt buf 9).bytes 3 }
        packetBuffer := buf
        events :=
          [⟨MAGIC_PACKET_EVENT_WAKE_RX, some (memcpy s.eventBuffer 0 (payloadAt buf 9).bytes 3)⟩] }
    := by
  have hg := (decode_guard_iff s buf).mpr hacc
  have ht2 : ¬ (payloadAt buf HEADER_802154_LENGTH).timeToLive > 0 := by
    change ¬ rd8 buf 11 > 0
    omega
  unfold decodeMagicPacket
  rw [if_pos hen, if_pos hg, if_neg ht2]
  rfl

/-- The value behind `decodeMagicPacket`'s SUCCESS: the acceptance conditions hold. -/
theorem accept_of_success (s : State) (buf : List Nat) (hen : s.filterEnabled_g ≠ 0)
    (hret : (decodeMagicPacket s buf).ret = MAGIC_PACKET_SUCCESS) : specAcceptance s buf := by
  by_contra hacc
  rw [decode_dropped s buf hen hacc] at hret
  cases hret

theorem memcpy_front3 (dst src : List Nat) (hd : 3 ≤ dst.length) (hs : 3 ≤ src.length) :
    memcpy dst 0 src 3 = src.take 3 ++ dst.drop 3 := by
  rw [memcpy_eq dst 0 src 3 (by omega) hs]
  simp

/-- What the ENABLED callback receives: PAN id and channel of the applied configuration,
followed by whatever byte 3 of the event buffer held before the call. -/
theorem enable_event_payload (s : State) (C : MagicPacketEnablePayload_t)
    (hsz : 4 ≤ s.eventBuffer.length) (hpan : C.panId < 65536) :
    (enableMagicPacketFilter s C).2.map (fun e => e.data.map enablePayloadAt)
      = [some ⟨C.panId, C.channel, rd8 s.eventBuffer 3⟩] := by
  have hm : memcpy s.eventBuffer 0 C.bytes MAGIC_PACKET_PAYLOAD_LENGTH
      = [C.panId % 256, C.panId / 256 % 256, C.channel] ++ s.eventBuffer.drop 3 := by
    rw [MAGIC_PACKET_PAYLOAD_LENGTH,
      memcpy_front3 _ _ (by omega) (by simp [MagicPacketEnablePayload_t.bytes])]
    rfl
  have h3 : (s.eventBuffer.drop 3).getD 0 0 = s.eventBuffer.getD 3 0 := by
    simp [List.getD_eq_getElem?_getD, List.getElem?_drop]
  simp only [enableMagicPacketFilter, hm, List.map, Option.map, enablePayloadAt, rd16, rd8,
    List.cons_append, List.nil_append, List.getD_cons_zero, List.getD_cons_succ, h3,
    rd16_split C.panId hpan]

/-- An accepted frame with a positive time-to-live, whatever the buffer sizes: the call
returns SUCCESS after a TX callback followed by a WAKE_RX callback. -/
theorem decode_accept_relay_calls (s : State) (buf : List Nat) (hen : s.filterEnabled_g ≠ 0)
    (hacc : specAcceptance s buf) (ht : 0 < rd8 buf 11) :
    ∃ x y : Option (List Nat),
      (decodeMagicPacket s buf).events
        = [⟨MAGIC_PACKET_EVENT_TX, x⟩, ⟨MAGIC_PACKET_EVENT_WAKE_RX, y⟩] := by
  have hg := (decode_guard_iff s buf).mpr hacc
  have ht2 : (payloadAt buf HEADER_802154_LENGTH).timeToLive > 0 := ht
  unfold decodeMagicPacket
  rw [if_pos hen, if_pos hg, if_pos ht2]
  exact ⟨_, _, rfl⟩

/-! ## Lemmas on sequences of calls -/

theorem retransmit_frame (s : State) (p : MagicPacketPayload_t) :
    (retransmitMagicPacket s p).1.txBuffer.length = s.txBuffer.length
      ∧ (retransmitMagicPacket s p).1.eventBuffer = s.eventBuffer
      ∧ (retransmitMagicPacket s p).1.magicPacketLastFC_g = s.magicPacketLastFC_g
      ∧ (retransmitMagicPacket s p).1.filterConfig = s.filterConfig := by
  refine ⟨?_, rfl, rfl, rfl⟩
  simp only [retransmitMagicPacket, createMagicPacket, List.length_set, List.length_append,
    List.length_take, memcpy_length, List.length_drop]
  omega

/-- What `decodeMagicPacket` never changes: the configuration, the freshness tracker and
the sizes of the two scratch buffers. -/
theorem decode_frame (s : State) (buf : List Nat) :
    (decodeMagicPacket s buf).state.filterConfig = s.filterConfig
      ∧ (decodeMagicPacket s buf).state.magicPacketLastFC_g = s.magicPacketLastFC_g
      ∧ (decodeMagicPacket s buf).state.txBuffer.length = s.txBuffer.length
      ∧ (decodeMagicPacket s buf).state.eventBuffer.length = s.eventBuffer.length := by
  by_cases hen : s.filterEnabled_g = 0
  · rw [decode_disabled s buf hen]
    exact ⟨rfl, rfl, rfl, rfl⟩
  · by_cases hacc : specAcceptance s buf
    · by_cases ht : rd8 buf 11 = 0
      · rw [decode_accept_no_relay s buf hen hacc ht]
        exact ⟨rfl, rfl, rfl, memcpy_length _ _ _ _⟩
      · have hg := (decode_guard_iff s buf).mpr hacc
        have ht2 : (payloadAt buf HEADER_802154_LENGTH).timeToLive > 0 := by
          change rd8 buf 11 > 0
          omega
        unfold decodeMagicPacket
        rw [if_pos hen, if_pos hg, if_pos ht2]
        refine ⟨rfl, rfl, ?_, ?_⟩
        · exact (retransmit_frame _ _).1
        · exact memcpy_length _ _ _ _
    · rw [decode_dropped s buf hen hacc]
      exact ⟨rfl, rfl, rfl, rfl⟩

theorem step_keeps_freshness (s : State) (c : Call) :
    (Call.step s c).1.magicPacketLastFC_g = s.magicPacketLastFC_g := by
  cases c with
  | enable C => rfl
  | disable => rfl
  | create src dst pan buf p => rfl
  | decode buf => exact (decode_frame s buf).2.1

theorem step_keeps_sizes (s : State) (c : Call) (h : s.sized) : (Call.step s c).1.sized := by
  cases c with
  | enable C => exact ⟨h.1, (memcpy_length _ _ _ _).trans h.2⟩
  | disable => exact h
  | create src dst pan buf p => exact h
  | decode buf =>
    exact ⟨(decode_frame s buf).2.2.1.trans h.1, (decode_frame s buf).2.2.2.trans h.2⟩

theorem runCalls_keeps (s : State) (calls : List Call) :
    (runCalls s calls).magicPacketLastFC_g = s.magicPacketLastFC_g
      ∧ (s.sized → (runCalls s calls).sized) := by
  induction calls generalizing s with
  | nil => exact ⟨rfl, fun h => h⟩
  | cons c cs ih =>
    obtain ⟨h1, h2⟩ := ih (Call.step s c).1
    exact ⟨h1.trans (step_keeps_freshness s c), fun h => h2 (step_keeps_sizes s c h)⟩

theorem init_sized : State.init.sized := by
  simp [State.sized, State.init, MAX_PAYLOAD_LENGTH, MAX_EVENT_DATA_LENGTH]

theorem createMagicPacket_seq_byte (s : State) (src dst pan : Nat) (buf : List Nat)
    (p : MagicPacketPayload_t) (hlen : 12 ≤ buf.length) :
    rd8 (createMagicPacket s src dst pan buf p).2 2 = (s.header154LastFC_g + 1) % 256 := by
  rw [createMagicPacket_buffer s src dst pan buf p hlen]
  simp only [rd8, List.cons_append, List.getD_cons_zero, List.getD_cons_succ]

theorem not_accept_of_dropped (s : State) (buf : List Nat) (hen : s.filterEnabled_g ≠ 0)
    (hret : (decodeMagicPacket s buf).ret = MAGIC_PACKET_ERROR_DROPPED) :
    ¬ specAcceptance s buf := by
  intro hacc
  rw [decode_ret_success s buf hen hacc] at hret
  cases hret

theorem wake_snapshot (eb : List Nat) (p : MagicPacketPayload_t) (h : 3 ≤ eb.length) :
    payloadAt (memcpy eb 0 p.bytes 3) 0 = p := by
  rw [memcpy_front3 eb p.bytes h (by simp [MagicPacketPayload_t.bytes])]
  simp only [MagicPacketPayload_t.bytes, List.take_succ_cons, List.take_zero, payloadAt, rd8,
    List.cons_append, List.nil_append, List.getD_cons_zero, List.getD_cons_succ]

theorem payloadAt_eta (buf : List Nat) :
    (⟨rd8 buf 9, rd8 buf 10, rd8 buf 11⟩ : MagicPacketPayload_t) = payloadAt buf 9 := rfl

/-! ## Lemmas on the relay chain -/

theorem wakeFrame_accept (p fc st t : Nat) (s : State) (frame : List Nat)
    (hs : relayNode p s) (hf : wakeFrame p fc st t frame) :
    specAcceptance s frame ∧ rd8 frame 9 = fc ∧ rd8 frame 10 = st ∧ rd8 frame 11 = t := by
  obtain ⟨_, h0, h3, h7, h5, hp⟩ := hf
  refine ⟨⟨h0, h3.trans hs.2.1.symm, h7, h5, Or.inr hs.2.2.1⟩, ?_, ?_, ?_⟩
  · exact congrArg MagicPacketPayload_t.frameCounter hp
  · exact congrArg MagicPacketPayload_t.status hp
  · exact congrArg MagicPacketPayload_t.timeToLive hp

/-- A hop that receives a positive time-to-live: it accepts, makes one TX callback, and
the frame it emits is a wake frame for the same PAN with the time-to-live one lower. -/
theorem hop_relays (p fc st t : Nat) (s : State) (frame : List Nat) (hp : p < 65536)
    (hs : relayNode p s) (hf : wakeFrame p fc st (t + 1) frame) :
    (decodeMagicPacket s frame).ret = MAGIC_PACKET_SUCCESS
      ∧ txPayloads (decodeMagicPacket s frame).events = [some ⟨fc, st, t⟩]
      ∧ (callsOf MAGIC_PACKET_EVENT_TX (decodeMagicPacket s frame).events).length = 1
      ∧ ∃ f, nextFrame (decodeMagicPacket s frame) = some f ∧ wakeFrame p fc st t f := by
  obtain ⟨hacc, h9, h10, h11⟩ := wakeFrame_accept p fc st (t + 1) s frame hs hf
  have hen := hs.1
  have hlen := hf.1
  have htx : 13 ≤ s.txBuffer.length := by
    rw [hs.2.2.2.1]
    decide
  have ht : 0 < rd8 frame 11 := by omega
  have hpan : s.panId_g < 65536 := by
    rw [hs.2.1]
    exact hp
  have hrp : relayedPayload frame = ⟨fc, st, t⟩ := by
    simp only [relayedPayload, h9, h10, h11, Nat.add_sub_cancel]
  rw [decode_accept_relay s frame hen hacc ht hlen htx, hrp]
  refine ⟨rfl, ?_, by simp [callsOf], ?_⟩
  · simp only [txPayloads, callsOf, List.filter, decide_True, decide_False, List.map,
      Option.map, txFrame, relayImage, List.cons_append, List.drop_succ_cons, List.drop_zero,
      payloadAt, rd8, HEADER_802154_LENGTH, List.getD_cons_zero, List.getD_cons_succ]
  · refine ⟨_, rfl, ?_⟩
    simp only [callsOf, List.filter, decide_True, decide_False, txFrame, relayImage,
      List.cons_append, List.drop_succ_cons, List.drop_zero, List.take_succ_cons,
      List.take_zero, List.nil_append, wakeFrame, payloadAt, rd16, rd8, List.getD_cons_zero,
      List.getD_cons_succ, List.length_cons, List.length_nil]
    refine ⟨by omega, by norm_num, ?_, by norm_num, by norm_num, trivial⟩
    rw [← hs.2.1]
    exact rd16_split _ hpan

/-- The hop that receives time-to-live 0: it accepts and makes no TX callback. -/
theorem hop_stops (p fc st : Nat) (s : State) (frame : List Nat)
    (hs : relayNode p s) (hf : wakeFrame p fc st 0 frame) :
    (decodeMagicPacket s frame).ret = MAGIC_PACKET_SUCCESS
      ∧ txPayloads (decodeMagicPacket s frame).events = []
      ∧ (callsOf MAGIC_PACKET_EVENT_TX (decodeMagicPacket s frame).events).length = 0
      ∧ nextFrame (decodeMagicPacket s frame) = none := by
  obtain ⟨hacc, _, _, h11⟩ := wakeFrame_accept p fc st 0 s frame hs hf
  rw [decode_accept_no_relay s frame hs.1 hacc h11]
  refine ⟨rfl, by simp [txPayloads, callsOf], by simp [callsOf], ?_⟩
  simp [nextFrame, callsOf]

theorem relayChain_run (node : Nat → State) (p fc st : Nat) (hp : p < 65536)
    (hnode : ∀ k, relayNode p (node k)) :
    ∀ (t fuel k : Nat) (frame : List Nat), t < fuel → wakeFrame p fc st t frame →
      (relayChain node fuel k frame).length = t + 1
        ∧ (∀ r ∈ relayChain node fuel k frame, r.ret = MAGIC_PACKET_SUCCESS)
        ∧ (relayChain node fuel k frame).map (fun r => txPayloads r.events)
            = (List.range t).map (fun j => [some ⟨fc, st, t - (j + 1)⟩]) ++ [[]]
        ∧ ((relayChain node fuel k frame).map
            (fun r => (callsOf MAGIC_PACKET_EVENT_TX r.events).length)).sum = t := by
  intro t
  induction t with
  | zero =>
    intro fuel k frame hfuel hf
    obtain ⟨fuel, rfl⟩ : ∃ m, fuel = m + 1 := ⟨fuel - 1, by omega⟩
    obtain ⟨h1, h2, h3, h4⟩ := hop_stops p fc st (node k) frame (hnode k) hf
    simp only [relayChain, h4]
    refine ⟨rfl, ?_, ?_, ?_⟩
    · intro r hr
      rw [List.mem_singleton] at hr
      rw [hr]
      exact h1
    · simp [h2]
    · simp [h3]
  | succ t ih =>
    intro fuel k frame hfuel hf
    obtain ⟨fuel, rfl⟩ : ∃ m, fuel = m + 1 := ⟨fuel - 1, by omega⟩
    obtain ⟨h1, h2, h3, f, h4, h5⟩ := hop_relays p fc st t (node k) frame hp (hnode k) hf
    obtain ⟨i1, i2, i3, i4⟩ := ih fuel (k + 1) f (by omega) h5
    simp only [relayChain, h4]
    refine ⟨by simp [i1], ?_, ?_, ?_⟩
    · intro r hr
      rw [List.mem_cons] at hr
      rcases hr with hr | hr
      · rw [hr]
        exact h1
      · exact i2 r hr
    · rw [List.map_cons, i3, h2, List.range_succ_eq_map, List.map_cons, List.map_map]
      simp only [List.cons_append, Nat.zero_add, Nat.add_sub_cancel]
      congr 2
      apply List.map_congr_left
      intro j _
      have e : t + 1 - (Nat.succ j + 1) = t - (j + 1) := by omega
      simp only [Function.comp, e]
    · rw [List.map_cons, List.sum_cons, i4, h3]
      omega

theorem reached_relayNode (p : Nat) (calls : List Call)
    (hen : (runCalls State.init calls).filterEnabled_g ≠ 0)
    (hpan : (runCalls State.init calls).panId_g = p) :
    relayNode p (runCalls State.init calls) :=
  ⟨hen, hpan, (runCalls_keeps State.init calls).1,
    (runCalls_keeps State.init calls).2 init_sized⟩

theorem created_wakeFrame (s : State) (p fc st t : Nat) (buf : List Nat) (hp : p < 65536)
    (hlen : 12 ≤ buf.length) :
    wakeFrame p fc st t (createMagicPacket s 0xFFFF 0xFFFF p buf ⟨fc, st, t⟩).2 := by
  rw [createMagicPacket_buffer s _ _ p buf _ hlen]
  have e1 : (0xFFFF : Nat) % 256 = 0xFF := by norm_num
  have e2 : (0xFFFF : Nat) / 256 % 256 = 0xFF := by norm_num
  simp only [e1, e2, wakeFrame, payloadAt, rd16, rd8, List.cons_append, List.getD_cons_zero,
    List.getD_cons_succ, List.length_cons, List.length_append, List.length_nil]
  refine ⟨by omega, by norm_num, rd16_split p hp, by norm_num, by norm_num, trivial⟩

theorem scenarioCreated_sized (ttl : Nat) : (scenarioCreated ttl).1.sized := by
  simp [State.sized, scenarioCreated, createMagicPacket, scenarioEnabled,
    enableMagicPacketFilter, memcpy_length, State.init, MAX_PAYLOAD_LENGTH,
    MAX_EVENT_DATA_LENGTH]

/-! ## The claims -/

/-- C1: for every 16-bit source address, destination address and PAN id, every payload and
every prior module state, reading the twelve bytes written by `createMagicPacket` back at
the offsets `decodeMagicPacket` uses yields frame control 0x9841, the supplied PAN id,
destination and source, and the supplied payload. -/
theorem createMagicPacket_roundtrip (s : State) (srcAddress destAddress panID : Nat)
    (buf : List Nat) (p : MagicPacketPayload_t)
    (hsrc : srcAddress < 65536) (hdst : destAddress < 65536) (hpan : panID < 65536)
    (hlen : 12 ≤ buf.length) :
    (headerAt (createMagicPacket s srcAddress destAddress panID buf p).2).frameControl = 0x9841
      ∧ (headerAt (createMagicPacket s srcAddress destAddress panID buf p).2).panID = panID
      ∧ (headerAt (createMagicPacket s srcAddress destAddress panID buf p).2).dstAddress
          = destAddress
      ∧ (headerAt (createMagicPacket s srcAddress destAddress panID buf p).2).srcAddress
          = srcAddress
      ∧ payloadAt (createMagicPacket s srcAddress destAddress panID buf p).2
          HEADER_802154_LENGTH = p := by
  rw [createMagicPacket_buffer s srcAddress destAddress panID buf p hlen]
  simp only [headerAt, payloadAt, rd16, rd8, HEADER_802154_LENGTH, HEADER_802154_FC_SHIFT,
    HEADER_802154_PANID_SHIFT, HEADER_802154_DEST_SHIFT, HEADER_802154_SRC_SHIFT,
    List.cons_append, List.getD_cons_zero, List.getD_cons_succ]
  refine ⟨by norm_num, rd16_split panID hpan, rd16_split destAddress hdst,
    rd16_split srcAddress hsrc, trivial⟩

theorem createMagicPacket_roundtrip_witness :
    (headerAt (createMagicPacket State.init 0xFFFF 0xFFFF 0x1234 (List.replicate 12 0)
        ⟨1, 0, 3⟩).2).frameControl = 0x9841
      ∧ (headerAt (createMagicPacket State.init 0xFFFF 0xFFFF 0x1234 (List.replicate 12 0)
        ⟨1, 0, 3⟩).2).panID = 0x1234
      ∧ (headerAt (createMagicPacket State.init 0xFFFF 0xFFFF 0x1234 (List.replicate 12 0)
        ⟨1, 0, 3⟩).2).dstAddress = 0xFFFF
      ∧ (headerAt (createMagicPacket State.init 0xFFFF 0xFFFF 0x1234 (List.replicate 12 0)
        ⟨1, 0, 3⟩).2).srcAddress = 0xFFFF
      ∧ payloadAt (createMagicPacket State.init 0xFFFF 0xFFFF 0x1234 (List.replicate 12 0)
        ⟨1, 0, 3⟩).2 HEADER_802154_LENGTH = ⟨1, 0, 3⟩ :=
  createMagicPacket_roundtrip State.init 0xFFFF 0xFFFF 0x1234 (List.replicate 12 0) ⟨1, 0, 3⟩
    (by decide) (by decide) (by decide) (by decide)

/-- C2: with the filter enabled and a buffer of at least twelve bytes, `decodeMagicPacket`
returns MAGIC_PACKET_SUCCESS exactly when the frame-control word is 0x9841, the PAN id is
the configured one, source and destination are 0xFFFF and the freshness check passes; when
the conjunction fails it returns MAGIC_PACKET_ERROR_DROPPED. -/
theorem decode_success_iff_all_checks (s : State) (buf : List Nat)
    (hen : s.filterEnabled_g ≠ 0) (hlen : 12 ≤ buf.length) :
    ((decodeMagicPacket s buf).ret = MAGIC_PACKET_SUCCESS
        ↔ (rd16 buf 0 = 0x9841
            ∧ rd16 buf 3 = s.panId_g
            ∧ rd16 buf 7 = 0xFFFF
            ∧ rd16 buf 5 = 0xFFFF
            ∧ (rd8 buf 9 > s.magicPacketLastFC_g ∨ s.magicPacketLastFC_g = 0xFF)))
      ∧ (¬ (rd16 buf 0 = 0x9841
            ∧ rd16 buf 3 = s.panId_g
            ∧ rd16 buf 7 = 0xFFFF
            ∧ rd16 buf 5 = 0xFFFF
            ∧ (rd8 buf 9 > s.magicPacketLastFC_g ∨ s.magicPacketLastFC_g = 0xFF))
          → (decodeMagicPacket s buf).ret = MAGIC_PACKET_ERROR_DROPPED) := by
  have _ := hlen
  constructor
  · constructor
    · intro hret
      by_contra hacc
      rw [decode_dropped s buf hen hacc] at hret
      cases hret
    · intro hacc
      exact decode_ret_success s buf hen hacc
  · intro hacc
    rw [decode_dropped s buf hen hacc]

theorem decode_success_iff_all_checks_witness :
    scenarioEnabled.filterEnabled_g ≠ 0
      ∧ 12 ≤ (scenarioCreated 3).2.length
      ∧ (decodeMagicPacket scenarioEnabled (scenarioCreated 3).2).ret = MAGIC_PACKET_SUCCESS
      ∧ (decodeMagicPacket scenarioEnabled (List.replicate 12 0)).ret
          = MAGIC_PACKET_ERROR_DROPPED :=
  ⟨by decide, by decide,
    (decode_success_iff_all_checks scenarioEnabled (scenarioCreated 3).2
      (by decide) (by decide)).1.2 (by decide),
    (decode_success_iff_all_checks scenarioEnabled (List.replicate 12 0)
      (by decide) (by decide)).2 (by decide)⟩

/-- C3: `decodeMagicPacket` returns MAGIC_PACKET_ERROR_DISABLED exactly when the filter is
not enabled. In the initial state and in the state after `disableMagicPacketFilter` it
returns DISABLED for every buffer and makes no callback; after
`enableMagicPacketFilter(C)`, from any prior state, it never returns DISABLED, and it
returns DROPPED when the checks fail. -/
theorem decode_disabled_iff_filter_off :
    (∀ (s : State) (buf : List Nat),
        (decodeMagicPacket s buf).ret = MAGIC_PACKET_ERROR_DISABLED ↔ s.filterEnabled_g = 0)
      ∧ (∀ buf : List Nat,
          (decodeMagicPacket State.init buf).ret = MAGIC_PACKET_ERROR_DISABLED
            ∧ (decodeMagicPacket State.init buf).events = [])
      ∧ (∀ (s : State) (buf : List Nat),
          (decodeMagicPacket (disableMagicPacketFilter s).1 buf).ret
              = MAGIC_PACKET_ERROR_DISABLED
            ∧ (decodeMagicPacket (disableMagicPacketFilter s).1 buf).events = [])
      ∧ (∀ (s : State) (C : MagicPacketEnablePayload_t) (buf : List Nat),
          (decodeMagicPacket (enableMagicPacketFilter s C).1 buf).ret
              ≠ MAGIC_PACKET_ERROR_DISABLED
            ∧ (¬ specAcceptance (enableMagicPacketFilter s C).1 buf →
                (decodeMagicPacket (enableMagicPacketFilter s C).1 buf).ret
                  = MAGIC_PACKET_ERROR_DROPPED)) := by
  refine ⟨?_, ?_, ?_, ?_⟩
  · intro s buf
    constructor
    · intro hret
      by_contra hen
      by_cases hacc : specAcceptance s buf
      · rw [decode_ret_success s buf hen hacc] at hret
        cases hret
      · rw [decode_dropped s buf hen hacc] at hret
        cases hret
    · intro h
      rw [decode_disabled s buf h]
  · intro buf
    rw [decode_disabled State.init buf rfl]
    exact ⟨rfl, rfl⟩
  · intro s buf
    rw [decode_disabled (disableMagicPacketFilter s).1 buf rfl]
    exact ⟨rfl, rfl⟩
  · intro s C buf
    have hen : (enableMagicPacketFilter s C).1.filterEnabled_g ≠ 0 := by
      change (1 : Nat) ≠ 0
      decide
    constructor
    · by_cases hacc : specAcceptance (enableMagicPacketFilter s C).1 buf
      · rw [decode_ret_success _ buf hen hacc]
        decide
      · rw [decode_dropped _ buf hen hacc]
        intro h
        cases h
    · intro hacc
      rw [decode_dropped _ buf hen hacc]

theorem decode_disabled_iff_filter_off_witness :
    (decodeMagicPacket (enableMagicPacketFilter State.init scenarioConfig).1
        (List.replicate 12 0)).ret = MAGIC_PACKET_ERROR_DROPPED :=
  (decode_disabled_iff_filter_off.2.2.2 State.init scenarioConfig (List.replicate 12 0)).2
    (by decide)

/-- C4: when the filter is disabled, `decodeMagicPacket` leaves the whole module state
(sequence tracker, freshness tracker, configuration, both scratch buffers) and the caller's
buffer exactly as they were. -/
theorem decode_disabled_changes_nothing (s : State) (buf : List Nat)
    (hoff : s.filterEnabled_g = 0) :
    (decodeMagicPacket s buf).state = s
      ∧ (decodeMagicPacket s buf).state.header154LastFC_g = s.header154LastFC_g
      ∧ (decodeMagicPacket s buf).state.magicPacketLastFC_g = s.magicPacketLastFC_g
      ∧ (decodeMagicPacket s buf).state.filterConfig = s.filterConfig
      ∧ (decodeMagicPacket s buf).state.txBuffer = s.txBuffer
      ∧ (decodeMagicPacket s buf).state.eventBuffer = s.eventBuffer
      ∧ (decodeMagicPacket s buf).packetBuffer = buf := by
  rw [decode_disabled s buf hoff]
  exact ⟨rfl, rfl, rfl, rfl, rfl, rfl, rfl⟩

theorem decode_disabled_changes_nothing_witness :
    (decodeMagicPacket State.init (scenarioCreated 3).2).state = State.init
      ∧ (decodeMagicPacket State.init (scenarioCreated 3).2).packetBuffer
          = (scenarioCreated 3).2 :=
  ⟨(decode_disabled_changes_nothing State.init (scenarioCreated 3).2 (by decide)).1,
    (decode_disabled_changes_nothing State.init (scenarioCreated 3).2 (by decide)).2.2.2.2.2.2⟩

/-- C5: for an accepted frame with time-to-live `t`: if `t > 0` the call makes exactly one
TX callback, whose frame carries the received frame counter and status with time-to-live
`t - 1`, and exactly one WAKE_RX callback; if `t = 0` it makes no TX callback and exactly
one WAKE_RX callback. -/
theorem decode_ttl_relay (s : State) (buf : List Nat)
    (hen : s.filterEnabled_g ≠ 0)
    (hret : (decodeMagicPacket s buf).ret = MAGIC_PACKET_SUCCESS)
    (hlen : 12 ≤ buf.length) (hsz : s.sized) :
    (0 < (payloadAt buf HEADER_802154_LENGTH).timeToLive →
        txPayloads (decodeMagicPacket s buf).events
            = [some ⟨(payloadAt buf HEADER_802154_LENGTH).frameCounter,
                (payloadAt buf HEADER_802154_LENGTH).status,
                (payloadAt buf HEADER_802154_LENGTH).timeToLive - 1⟩]
          ∧ (callsOf MAGIC_PACKET_EVENT_TX (decodeMagicPacket s buf).events).length = 1
          ∧ (callsOf MAGIC_PACKET_EVENT_WAKE_RX (decodeMagicPacket s buf).events).length = 1)
      ∧ ((payloadAt buf HEADER_802154_LENGTH).timeToLive = 0 →
          (callsOf MAGIC_PACKET_EVENT_TX (decodeMagicPacket s buf).events).length = 0
            ∧ (callsOf MAGIC_PACKET_EVENT_WAKE_RX (decodeMagicPacket s buf).events).length
                = 1) := by
  have hacc := accept_of_success s buf hen hret
  have htx : 13 ≤ s.txBuffer.length := by
    rw [hsz.1]
    decide
  constructor
  · intro ht
    rw [decode_accept_relay s buf hen hacc ht hlen htx]
    refine ⟨?_, by simp [callsOf], by simp [callsOf]⟩
    simp only [txPayloads, callsOf, List.filter, decide_True, decide_False, List.map,
      Option.map, txFrame, relayImage, List.cons_append, List.drop_succ_cons, List.drop_zero,
      payloadAt, rd8, HEADER_802154_LENGTH, List.getD_cons_zero, List.getD_cons_succ,
      relayedPayload]
  · intro ht
    rw [decode_accept_no_relay s buf hen hacc ht]
    exact ⟨by simp [callsOf], by simp [callsOf]⟩

theorem decode_ttl_relay_witness :
    txPayloads (scenarioDecoded 2).events = [some ⟨1, 0, 1⟩]
      ∧ (callsOf MAGIC_PACKET_EVENT_TX (scenarioDecoded 2).events).length = 1
      ∧ (callsOf MAGIC_PACKET_EVENT_WAKE_RX (scenarioDecoded 2).events).length = 1
      ∧ (callsOf MAGIC_PACKET_EVENT_TX (scenarioDecoded 0).events).length = 0
      ∧ (callsOf MAGIC_PACKET_EVENT_WAKE_RX (scenarioDecoded 0).events).length = 1 :=
  ⟨((decode_ttl_relay (scenarioCreated 2).1 (scenarioCreated 2).2
      (by decide) (by decide) (by decide) (scenarioCreated_sized 2)).1 (by decide)).1,
    ((decode_ttl_relay (scenarioCreated 2).1 (scenarioCreated 2).2
      (by decide) (by decide) (by decide) (scenarioCreated_sized 2)).1 (by decide)).2.1,
    ((decode_ttl_relay (scenarioCreated 2).1 (scenarioCreated 2).2
      (by decide) (by decide) (by decide) (scenarioCreated_sized 2)).1 (by decide)).2.2,
    ((decode_ttl_relay (scenarioCreated 0).1 (scenarioCreated 0).2
      (by decide) (by decide) (by decide) (scenarioCreated_sized 0)).2 (by decide)).1,
    ((decode_ttl_relay (scenarioCreated 0).1 (scenarioCreated 0).2
      (by decide) (by decide) (by decide) (scenarioCreated_sized 0)).2 (by decide)).2⟩

/-- C6 (as stated, refuted): in the concrete scenario the WAKE_RX payload does not report
time-to-live 3; the conjunction "SUCCESS, one WAKE_RX with time-to-live 3, one TX with
time-to-live 2" is false. -/
theorem scenario_wake_payload_not_as_received :
    ¬ ((scenarioDecoded 3).ret = MAGIC_PACKET_SUCCESS
        ∧ wakePayloads (scenarioDecoded 3).events = [some ⟨1, 0, 3⟩]
        ∧ txPayloads (scenarioDecoded 3).events = [some ⟨1, 0, 2⟩]) := by
  decide

/-- C6 (amended): from the initial state, after enabling with PAN 0x1234, channel 11,
border router 1, decoding the frame built by
`createMagicPacket(0xFFFF, 0xFFFF, 0x1234, {1, 0, 3})` returns SUCCESS, makes exactly one
TX callback whose frame's payload has time-to-live 2, and exactly one WAKE_RX callback
whose payload is the payload after the in-place decrement, time-to-live 2. The same holds
when the frame is decoded on the enabled module without the `createMagicPacket` call
having run on it. -/
theorem scenario_decode_outcome :
    (scenarioDecoded 3).ret = MAGIC_PACKET_SUCCESS
      ∧ (scenarioDecoded 3).events.map (fun e => e.event)
          = [MAGIC_PACKET_EVENT_TX, MAGIC_PACKET_EVENT_WAKE_RX]
      ∧ wakePayloads (scenarioDecoded 3).events = [some ⟨1, 0, 2⟩]
      ∧ txPayloads (scenarioDecoded 3).events = [some ⟨1, 0, 2⟩]
      ∧ (decodeMagicPacket scenarioEnabled (scenarioCreated 3).2).ret = MAGIC_PACKET_SUCCESS
      ∧ wakePayloads (decodeMagicPacket scenarioEnabled (scenarioCreated 3).2).events
          = [some ⟨1, 0, 2⟩]
      ∧ txPayloads (decodeMagicPacket scenarioEnabled (scenarioCreated 3).2).events
          = [some ⟨1, 0, 2⟩] := by
  decide

/-- C7: for an accepted frame with a positive time-to-live, the call makes one TX callback;
byte 0 of its buffer is 14, and bytes 1..12 are a frame with frame-control word 0x9841,
source and destination 0xFFFF, the configured PAN id, and the received payload with the
time-to-live decremented by one. -/
theorem decode_tx_buffer (s : State) (buf : List Nat)
    (hen : s.filterEnabled_g ≠ 0)
    (hret : (decodeMagicPacket s buf).ret = MAGIC_PACKET_SUCCESS)
    (ht : 0 < (payloadAt buf HEADER_802154_LENGTH).timeToLive)
    (hlen : 12 ≤ buf.length) (hsz : s.sized) (hpan : s.panId_g < 65536) :
    ∃ d : List Nat,
      callsOf MAGIC_PACKET_EVENT_TX (decodeMagicPacket s buf).events
          = [⟨MAGIC_PACKET_EVENT_TX, some d⟩]
        ∧ rd8 d 0 = 14
        ∧ rd8 d 0 = HEADER_802154_LENGTH + MAGIC_PACKET_PAYLOAD_LENGTH + CRC_802154_LENGTH
        ∧ (headerAt (txFrame d)).frameControl = 0x9841
        ∧ (headerAt (txFrame d)).srcAddress = 0xFFFF
        ∧ (headerAt (txFrame d)).dstAddress = 0xFFFF
        ∧ (headerAt (txFrame d)).panID = s.panId_g
        ∧ payloadAt (txFrame d) HEADER_802154_LENGTH
            = ⟨(payloadAt buf HEADER_802154_LENGTH).frameCounter,
                (payloadAt buf HEADER_802154_LENGTH).status,
                (payloadAt buf HEADER_802154_LENGTH).timeToLive - 1⟩ := by
  have hacc := accept_of_success s buf hen hret
  have htx : 13 ≤ s.txBuffer.length := by
    rw [hsz.1]
    decide
  rw [decode_accept_relay s buf hen hacc ht hlen htx]
  refine ⟨relayImage { s with header154LastFC_g := rd8 buf 2 } (relayedPayload buf),
    by simp [callsOf], ?_⟩
  simp only [txFrame, relayImage, List.cons_append, List.drop_succ_cons, List.drop_zero,
    headerAt, payloadAt, rd16, rd8, HEADER_802154_LENGTH, HEADER_802154_FC_SHIFT,
    HEADER_802154_PANID_SHIFT, HEADER_802154_DEST_SHIFT, HEADER_802154_SRC_SHIFT,
    MAGIC_PACKET_PAYLOAD_LENGTH, CRC_802154_LENGTH, List.getD_cons_zero, List.getD_cons_succ,
    relayedPayload]
  refine ⟨trivial, by norm_num, by norm_num, by norm_num, by norm_num, rd16_split _ hpan,
    trivial⟩

theorem decode_tx_buffer_witness :
    ∃ d : List Nat,
      callsOf MAGIC_PACKET_EVENT_TX (scenarioDecoded 3).events
          = [⟨MAGIC_PACKET_EVENT_TX, some d⟩]
        ∧ rd8 d 0 = 14
        ∧ rd8 d 0 = HEADER_802154_LENGTH + MAGIC_PACKET_PAYLOAD_LENGTH + CRC_802154_LENGTH
        ∧ (headerAt (txFrame d)).frameControl = 0x9841
        ∧ (headerAt (txFrame d)).srcAddress = 0xFFFF
        ∧ (headerAt (txFrame d)).dstAddress = 0xFFFF
        ∧ (headerAt (txFrame d)).panID = (scenarioCreated 3).1.panId_g
        ∧ payloadAt (txFrame d) HEADER_802154_LENGTH
            = ⟨(payloadAt (scenarioCreated 3).2 HEADER_802154_LENGTH).frameCounter,
                (payloadAt (scenarioCreated 3).2 HEADER_802154_LENGTH).status,
                (payloadAt (scenarioCreated 3).2 HEADER_802154_LENGTH).timeToLive - 1⟩ :=
  decode_tx_buffer (scenarioCreated 3).1 (scenarioCreated 3).2
    (by decide) (by decide) (by decide) (by decide) (scenarioCreated_sized 3) (by decide)

/-- C8: for 16-bit addresses and PAN id and a buffer of at least twelve bytes,
`createMagicPacket` writes bytes 0..11 and nothing else: bytes 0-1 are 0x41 0x98 (the
little-endian frame-control word 0x9841), byte 2 the new sequence number, bytes 3-4 the
PAN id, 5-6 the destination, 7-8 the source (low byte first), bytes 9, 10, 11 the frame
counter, status and time-to-live; bytes from index 12 on are the caller's. -/
theorem createMagicPacket_wire_layout (s : State) (srcAddress destAddress panID : Nat)
    (buf : List Nat) (p : MagicPacketPayload_t)
    (hsrc : srcAddress < 65536) (hdst : destAddress < 65536) (hpan : panID < 65536)
    (hlen : 12 ≤ buf.length) :
    (createMagicPacket s srcAddress destAddress panID buf p).2
        = [0x41, 0x98, (s.header154LastFC_g + 1) % 256,
            panID % 256, panID / 256,
            destAddress % 256, destAddress / 256,
            srcAddress % 256, srcAddress / 256,
            p.frameCounter, p.status, p.timeToLive] ++ buf.drop 12
      ∧ (createMagicPacket s srcAddress destAddress panID buf p).2.length = buf.length
      ∧ (createMagicPacket s srcAddress destAddress panID buf p).2.drop 12 = buf.drop 12
      ∧ rd16 (createMagicPacket s srcAddress destAddress panID buf p).2 0 = 0x9841 := by
  have e1 : panID / 256 % 256 = panID / 256 := by omega
  have e2 : destAddress / 256 % 256 = destAddress / 256 := by omega
  have e3 : srcAddress / 256 % 256 = srcAddress / 256 := by omega
  rw [createMagicPacket_buffer s srcAddress destAddress panID buf p hlen, e1, e2, e3]
  refine ⟨rfl, ?_, ?_, ?_⟩
  · simp only [List.length_append, List.length_cons, List.length_nil, List.length_drop]
    omega
  · simp only [List.cons_append, List.nil_append, List.drop_succ_cons, List.drop_zero]
  · simp only [rd16, List.cons_append, List.getD_cons_zero, List.getD_cons_succ]

theorem createMagicPacket_wire_layout_witness :
    (createMagicPacket State.init 0xFFFF 0xFFFF 0x1234
        [1, 2, 3, 4, 5, 6, 7, 8, 9, 10, 11, 12, 13, 14] ⟨1, 0, 3⟩).2
      = [0x41, 0x98, 0, 0x34, 0x12, 0xFF, 0xFF, 0xFF, 0xFF, 1, 0, 3, 13, 14] := by
  have h := (createMagicPacket_wire_layout State.init 0xFFFF 0xFFFF 0x1234
    [1, 2, 3, 4, 5, 6, 7, 8, 9, 10, 11, 12, 13, 14] ⟨1, 0, 3⟩
    (by decide) (by decide) (by decide) (by decide)).1
  rw [h]
  decide

/-- C9: after `enableMagicPacketFilter(C)`, from any prior state, the filter is enabled
with PAN id, channel and border-router flag those of `C`, whatever was configured before
(enabling with `C1` first changes nothing in the resulting configuration); the call makes
exactly one callback, an ENABLED one, and leaves both the link-layer sequence tracker and
the freshness tracker as they were. -/
theorem enable_sets_configuration (s : State) (C : MagicPacketEnablePayload_t) :
    (enableMagicPacketFilter s C).1.filterEnabled_g = 1
      ∧ (enableMagicPacketFilter s C).1.panId_g = C.panId
      ∧ (enableMagicPacketFilter s C).1.monitoredChannel_g = C.channel
      ∧ (enableMagicPacketFilter s C).1.amBorderRouter_g = C.borderRouter
      ∧ (∀ C1 : MagicPacketEnablePayload_t,
          (enableMagicPacketFilter (enableMagicPacketFilter s C1).1 C).1.filterConfig
            = (enableMagicPacketFilter s C).1.filterConfig)
      ∧ (enableMagicPacketFilter s C).2.map (fun e => e.event) = [MAGIC_PACKET_EVENT_ENABLED]
      ∧ (enableMagicPacketFilter s C).1.header154LastFC_g = s.header154LastFC_g
      ∧ (enableMagicPacketFilter s C).1.magicPacketLastFC_g = s.magicPacketLastFC_g :=
  ⟨rfl, rfl, rfl, rfl, fun _ => rfl, rfl, rfl, rfl⟩

/-- C10 (the code at the failing input): enabling from the initial state with PAN 0x1234,
channel 11, border router 1 stores border-router flag 1, yet the buffer handed to the
ENABLED callback, read back as a `MagicPacketEnablePayload_t`, has borderRouter 0: the
copy into the event buffer is three bytes long, and the fourth byte of the enable payload
is not copied. -/
theorem enable_event_omits_borderRouter :
    (enableMagicPacketFilter State.init scenarioConfig).1.amBorderRouter_g = 1
      ∧ (enableMagicPacketFilter State.init scenarioConfig).2.map
          (fun e => e.data.map enablePayloadAt) = [some ⟨0x1234, 11, 0⟩]
      ∧ (enableMagicPacketFilter State.init scenarioConfig).2.map
          (fun e => e.data.map enablePayloadAt) ≠ [some scenarioConfig] := by
  decide

/-- C11: from any prior state `disableMagicPacketFilter` clears the enabled flag and the
border-router flag, sets the PAN id to 0xFFFF, and makes exactly one callback, a DISABLED
one with a null data pointer; `decodeMagicPacket` called next, on any buffer, returns
MAGIC_PACKET_ERROR_DISABLED. -/
theorem disable_clears_filter (s : State) :
    (disableMagicPacketFilter s).1.filterEnabled_g = 0
      ∧ (disableMagicPacketFilter s).1.amBorderRouter_g = 0
      ∧ (disableMagicPacketFilter s).1.panId_g = 0xFFFF
      ∧ (disableMagicPacketFilter s).2 = [⟨MAGIC_PACKET_EVENT_DISABLED, none⟩]
      ∧ (∀ buf : List Nat,
          (decodeMagicPacket (disableMagicPacketFilter s).1 buf).ret
            = MAGIC_PACKET_ERROR_DISABLED) := by
  refine ⟨rfl, rfl, rfl, rfl, ?_⟩
  intro buf
  rw [decode_disabled (disableMagicPacketFilter s).1 buf rfl]

/-- C12 (as stated, refuted): enabling from the initial state with channel 11 and then
disabling does not give back the initial filter configuration. -/
theorem disable_does_not_restore_channel :
    (disableMagicPacketFilter (enableMagicPacketFilter State.init scenarioConfig).1).1.filterConfig
        ≠ State.init.filterConfig
      ∧ (disableMagicPacketFilter
          (enableMagicPacketFilter State.init scenarioConfig).1).1.monitoredChannel_g = 11
      ∧ State.init.monitoredChannel_g = 0 := by
  decide

/-- C12 (amended): from any prior state, after `disableMagicPacketFilter` the enabled flag
is 0, the PAN id is 0xFFFF and the border-router flag is 0, as in the initial state, while
the monitored channel keeps the value it had before the call; so enable(C) followed by
disable gives the configuration (0, 0xFFFF, C.channel, 0), which is the initial one exactly
when C.channel is 0. -/
theorem disable_resets_all_but_channel (s : State) :
    (disableMagicPacketFilter s).1.filterEnabled_g = State.init.filterEnabled_g
      ∧ (disableMagicPacketFilter s).1.panId_g = State.init.panId_g
      ∧ (disableMagicPacketFilter s).1.amBorderRouter_g = State.init.amBorderRouter_g
      ∧ (disableMagicPacketFilter s).1.monitoredChannel_g = s.monitoredChannel_g
      ∧ (∀ C : MagicPacketEnablePayload_t,
          (disableMagicPacketFilter (enableMagicPacketFilter s C).1).1.filterConfig
              = (0, 0xFFFF, C.channel, 0)
            ∧ ((disableMagicPacketFilter (enableMagicPacketFilter s C).1).1.filterConfig
                = State.init.filterConfig ↔ C.channel = 0)) := by
  refine ⟨rfl, rfl, rfl, rfl, ?_⟩
  intro C
  refine ⟨rfl, ?_⟩
  constructor
  · intro h
    have h2 := congrArg (fun c => c.2.2.1) h
    exact h2
  · intro h
    show ((0 : Nat), (0xFFFF : Nat), C.channel, (0 : Nat)) = (0, 0xFFFF, 0, 0)
    rw [h]

/-- C13: for every module state and every buffer `decodeMagicPacket` returns SUCCESS,
DROPPED or DISABLED, never DUPLICATE and never FATAL, and it makes a WAKE_RX callback
exactly when it returns SUCCESS (one such callback then, none otherwise). -/
theorem decode_result_kinds (s : State) (buf : List Nat) :
    ((decodeMagicPacket s buf).ret = MAGIC_PACKET_SUCCESS
        ∨ (decodeMagicPacket s buf).ret = MAGIC_PACKET_ERROR_DROPPED
        ∨ (decodeMagicPacket s buf).ret = MAGIC_PACKET_ERROR_DISABLED)
      ∧ (decodeMagicPacket s buf).ret ≠ MAGIC_PACKET_ERROR_DUPLICATE
      ∧ (decodeMagicPacket s buf).ret ≠ MAGIC_PACKET_ERROR_FATAL
      ∧ (callsOf MAGIC_PACKET_EVENT_WAKE_RX (decodeMagicPacket s buf).events ≠ []
          ↔ (decodeMagicPacket s buf).ret = MAGIC_PACKET_SUCCESS)
      ∧ (callsOf MAGIC_PACKET_EVENT_WAKE_RX (decodeMagicPacket s buf).events).length
          = (if (decodeMagicPacket s buf).ret = MAGIC_PACKET_SUCCESS then 1 else 0) := by
  by_cases hen : s.filterEnabled_g = 0
  · rw [decode_disabled s buf hen]
    simp [callsOf]
  · by_cases hacc : specAcceptance s buf
    · have hret := decode_ret_success s buf hen hacc
      rw [hret]
      by_cases ht : rd8 buf 11 = 0
      · rw [decode_accept_no_relay s buf hen hacc ht]
        simp [callsOf]
      · obtain ⟨x, y, hev⟩ := decode_accept_relay_calls s buf hen hacc (by omega)
        rw [hev]
        simp [callsOf]
    · rw [decode_dropped s buf hen hacc]
      simp [callsOf]

/-- C14: in every state reached from the initial one by calls of `enableMagicPacketFilter`,
`disableMagicPacketFilter`, `createMagicPacket` and `decodeMagicPacket` the last-accepted
freshness counter is still 0xFF; the freshness check therefore passes for every payload,
and on an enabled filter a frame that passes the frame-control, PAN and address checks is
accepted, and accepted again when the same content is decoded a second time. -/
theorem freshness_tracker_never_updated (calls : List Call) :
    (runCalls State.init calls).magicPacketLastFC_g = 0xFF
      ∧ (∀ p : MagicPacketPayload_t,
          validateMagicPayloadFC (runCalls State.init calls) p = 1)
      ∧ (∀ buf : List Nat,
          (runCalls State.init calls).filterEnabled_g ≠ 0 →
          rd16 buf 0 = 0x9841 →
          rd16 buf 3 = (runCalls State.init calls).panId_g →
          rd16 buf 7 = 0xFFFF →
          rd16 buf 5 = 0xFFFF →
          (decodeMagicPacket (runCalls State.init calls) buf).ret = MAGIC_PACKET_SUCCESS
            ∧ (decodeMagicPacket (decodeMagicPacket (runCalls State.init calls) buf).state
                buf).ret = MAGIC_PACKET_SUCCESS) := by
  have hfc : (runCalls State.init calls).magicPacketLastFC_g = 0xFF :=
    (runCalls_keeps State.init calls).1
  refine ⟨hfc, ?_, ?_⟩
  · intro p
    unfold validateMagicPayloadFC
    rw [if_pos (Or.inr ⟨Nat.zero_le _, hfc⟩)]
  · intro buf hen h0 h3 h7 h5
    have hacc : specAcceptance (runCalls State.init calls) buf :=
      ⟨h0, h3, h7, h5, Or.inr hfc⟩
    refine ⟨decode_ret_success _ buf hen hacc, ?_⟩
    have hfr := decode_frame (runCalls State.init calls) buf
    have hen2 : (decodeMagicPacket (runCalls State.init calls) buf).state.filterEnabled_g
        = (runCalls State.init calls).filterEnabled_g := congrArg (fun c => c.1) hfr.1
    have hpan2 : (decodeMagicPacket (runCalls State.init calls) buf).state.panId_g
        = (runCalls State.init calls).panId_g := congrArg (fun c => c.2.1) hfr.1
    apply decode_ret_success
    · rw [hen2]
      exact hen
    · exact ⟨h0, h3.trans hpan2.symm, h7, h5, Or.inr (hfr.2.1.trans hfc)⟩

theorem freshness_tracker_never_updated_witness :
    (decodeMagicPacket (runCalls State.init [Call.enable scenarioConfig])
        (scenarioCreated 3).2).ret = MAGIC_PACKET_SUCCESS
      ∧ (decodeMagicPacket (decodeMagicPacket (runCalls State.init [Call.enable scenarioConfig])
          (scenarioCreated 3).2).state (scenarioCreated 3).2).ret = MAGIC_PACKET_SUCCESS :=
  (freshness_tracker_never_updated [Call.enable scenarioConfig]).2.2 (scenarioCreated 3).2
    (by decide) (by decide) (by decide) (by decide) (by decide)

/-- C15 (as stated, refuted): in the concrete scenario the filter is enabled and the frame
passes the frame-control, PAN and address checks, yet after `decodeMagicPacket` the
sequence tracker is 1 while byte 2 of the frame is 0. -/
theorem relay_moves_sequence_tracker :
    (scenarioCreated 3).1.filterEnabled_g ≠ 0
      ∧ rd16 (scenarioCreated 3).2 0 = 0x9841
      ∧ rd16 (scenarioCreated 3).2 3 = (scenarioCreated 3).1.panId_g
      ∧ rd16 (scenarioCreated 3).2 7 = 0xFFFF
      ∧ rd16 (scenarioCreated 3).2 5 = 0xFFFF
      ∧ rd8 (scenarioCreated 3).2 2 = 0
      ∧ (scenarioDecoded 3).state.header154LastFC_g = 1
      ∧ (scenarioDecoded 3).state.header154LastFC_g ≠ rd8 (scenarioCreated 3).2 2 := by
  decide

/-- C15 (amended): on an enabled filter, for a frame that passes the frame-control, PAN
and address checks, the sequence tracker after `decodeMagicPacket` holds byte 2 of the
frame when no relay occurs (freshness check failed, or frame accepted with time-to-live
0), and byte 2 plus one modulo 256 when the frame is accepted with a positive
time-to-live and relayed. -/
theorem decode_sequence_tracker (s : State) (buf : List Nat)
    (hen : s.filterEnabled_g ≠ 0)
    (hfc : rd16 buf 0 = 0x9841) (hpan : rd16 buf 3 = s.panId_g)
    (hsrc : rd16 buf 7 = 0xFFFF) (hdst : rd16 buf 5 = 0xFFFF)
    (hlen : 12 ≤ buf.length) (hsz : s.sized) :
    (¬ (rd8 buf 9 > s.magicPacketLastFC_g ∨ s.magicPacketLastFC_g = 0xFF) →
        (decodeMagicPacket s buf).ret = MAGIC_PACKET_ERROR_DROPPED
          ∧ callsOf MAGIC_PACKET_EVENT_TX (decodeMagicPacket s buf).events = []
          ∧ (decodeMagicPacket s buf).state.header154LastFC_g = rd8 buf 2)
      ∧ ((rd8 buf 9 > s.magicPacketLastFC_g ∨ s.magicPacketLastFC_g = 0xFF) →
          rd8 buf 11 = 0 →
          (decodeMagicPacket s buf).ret = MAGIC_PACKET_SUCCESS
            ∧ callsOf MAGIC_PACKET_EVENT_TX (decodeMagicPacket s buf).events = []
            ∧ (decodeMagicPacket s buf).state.header154LastFC_g = rd8 buf 2)
      ∧ ((rd8 buf 9 > s.magicPacketLastFC_g ∨ s.magicPacketLastFC_g = 0xFF) →
          0 < rd8 buf 11 →
          (decodeMagicPacket s buf).ret = MAGIC_PACKET_SUCCESS
            ∧ (callsOf MAGIC_PACKET_EVENT_TX (decodeMagicPacket s buf).events).length = 1
            ∧ (decodeMagicPacket s buf).state.header154LastFC_g = (rd8 buf 2 + 1) % 256) := by
  have htx : 13 ≤ s.txBuffer.length := by
    rw [hsz.1]
    decide
  refine ⟨?_, ?_, ?_⟩
  · intro hfresh
    have hacc : ¬ specAcceptance s buf := fun h => hfresh h.2.2.2.2
    rw [decode_dropped s buf hen hacc]
    exact ⟨rfl, rfl, rfl⟩
  · intro hfresh ht
    rw [decode_accept_no_relay s buf hen ⟨hfc, hpan, hsrc, hdst, hfresh⟩ ht]
    exact ⟨rfl, by simp [callsOf], rfl⟩
  · intro hfresh ht
    rw [decode_accept_relay s buf hen ⟨hfc, hpan, hsrc, hdst, hfresh⟩ ht hlen htx]
    exact ⟨rfl, by simp [callsOf], rfl⟩

theorem decode_sequence_tracker_witness :
    (scenarioDecoded 3).ret = MAGIC_PACKET_SUCCESS
      ∧ (callsOf MAGIC_PACKET_EVENT_TX (scenarioDecoded 3).events).length = 1
      ∧ (scenarioDecoded 3).state.header154LastFC_g = (rd8 (scenarioCreated 3).2 2 + 1) % 256 :=
  (decode_sequence_tracker (scenarioCreated 3).1 (scenarioCreated 3).2
    (by decide) (by decide) (by decide) (by decide) (by decide) (by decide)
    (scenarioCreated_sized 3)).2.2 (by decide) (by decide)

/-- C16: if the sequence counter is `n` before `createMagicPacket`, byte 2 of the frame is
`(n + 1) % 256` and so is the counter afterwards; nothing else in the module state changes
and no callback is made. From the initial state the first frame carries sequence number
0, and a second call carries the first frame's sequence number plus one modulo 256. -/
theorem createMagicPacket_sequence (s : State) (srcAddress destAddress panID : Nat)
    (buf : List Nat) (p : MagicPacketPayload_t) (hlen : 12 ≤ buf.length) :
    rd8 (createMagicPacket s srcAddress destAddress panID buf p).2 2
        = (s.header154LastFC_g + 1) % 256
      ∧ (createMagicPacket s srcAddress destAddress panID buf p).1.header154LastFC_g
          = (s.header154LastFC_g + 1) % 256
      ∧ (createMagicPacket s srcAddress destAddress panID buf p).1
          = { s with header154LastFC_g := (s.header154LastFC_g + 1) % 256 }
      ∧ (Call.step s (Call.create srcAddress destAddress panID buf p)).2 = []
      ∧ (s.header154LastFC_g = 0xFF →
          rd8 (createMagicPacket s srcAddress destAddress panID buf p).2 2 = 0)
      ∧ rd8 (createMagicPacket State.init srcAddress destAddress panID buf p).2 2 = 0
      ∧ (∀ (src2 dst2 pan2 : Nat) (buf2 : List Nat) (p2 : MagicPacketPayload_t),
          12 ≤ buf2.length →
          rd8 (createMagicPacket (createMagicPacket s srcAddress destAddress panID buf p).1
              src2 dst2 pan2 buf2 p2).2 2
            = (rd8 (createMagicPacket s srcAddress destAddress panID buf p).2 2 + 1) % 256) := by
  have h1 := createMagicPacket_seq_byte s srcAddress destAddress panID buf p hlen
  refine ⟨h1, rfl, rfl, rfl, ?_, ?_, ?_⟩
  · intro h
    rw [h1, h]
  · rw [createMagicPacket_seq_byte State.init srcAddress destAddress panID buf p hlen]
    rfl
  · intro src2 dst2 pan2 buf2 p2 hlen2
    rw [createMagicPacket_seq_byte _ src2 dst2 pan2 buf2 p2 hlen2, h1]
    rfl

theorem createMagicPacket_sequence_witness :
    rd8 (createMagicPacket State.init 0xFFFF 0xFFFF 0x1234 (List.replicate 12 0)
        ⟨1, 0, 3⟩).2 2 = 0
      ∧ rd8 (createMagicPacket
          (createMagicPacket State.init 0xFFFF 0xFFFF 0x1234 (List.replicate 12 0) ⟨1, 0, 3⟩).1
          0xFFFF 0xFFFF 0x1234 (List.replicate 12 0) ⟨2, 0, 3⟩).2 2 = 1 := by
  have h := createMagicPacket_sequence State.init 0xFFFF 0xFFFF 0x1234 (List.replicate 12 0)
    ⟨1, 0, 3⟩ (by decide)
  refine ⟨h.2.2.2.2.2.1, ?_⟩
  rw [h.2.2.2.2.2.2 0xFFFF 0xFFFF 0x1234 (List.replicate 12 0) ⟨2, 0, 3⟩ (by decide),
    h.2.2.2.2.2.1]

/-- C17: take the frame built by `createMagicPacket(0xFFFF, 0xFFFF, p, {fc, st, n})` and
pass it along a chain of nodes, each reached from the initial state by some sequence of
calls and enabled with PAN id `p`, every hop decoding the frame of the previous hop's TX
callback. With any fuel above `n` the chain has exactly `n + 1` hops, every hop returns
SUCCESS, hop `k` (counted from 0) emits the payload with time-to-live `n - (k + 1)`, the
last hop, which receives time-to-live 0, emits nothing, and the TX callbacks number `n`
in all. -/
theorem relay_chain_bounded (p n fc st : Nat) (hp : p < 65536) (hn : n < 256)
    (s0 : State) (buf0 : List Nat) (hbuf : 12 ≤ buf0.length) (calls : Nat → List Call)
    (hnode : ∀ k, (runCalls State.init (calls k)).filterEnabled_g ≠ 0
      ∧ (runCalls State.init (calls k)).panId_g = p)
    (fuel : Nat) (hfuel : n < fuel) :
    (relayChain (fun k => runCalls State.init (calls k)) fuel 0
        (createMagicPacket s0 0xFFFF 0xFFFF p buf0 ⟨fc, st, n⟩).2).length = n + 1
      ∧ (∀ r ∈ relayChain (fun k => runCalls State.init (calls k)) fuel 0
          (createMagicPacket s0 0xFFFF 0xFFFF p buf0 ⟨fc, st, n⟩).2,
            r.ret = MAGIC_PACKET_SUCCESS)
      ∧ (relayChain (fun k => runCalls State.init (calls k)) fuel 0
          (createMagicPacket s0 0xFFFF 0xFFFF p buf0 ⟨fc, st, n⟩).2).map
            (fun r => txPayloads r.events)
          = (List.range n).map (fun k => [some ⟨fc, st, n - (k + 1)⟩]) ++ [[]]
      ∧ ((relayChain (fun k => runCalls State.init (calls k)) fuel 0
          (createMagicPacket s0 0xFFFF 0xFFFF p buf0 ⟨fc, st, n⟩).2).map
            (fun r => (callsOf MAGIC_PACKET_EVENT_TX r.events).length)).sum = n := by
  have _ := hn
  exact relayChain_run (fun k => runCalls State.init (calls k)) p fc st hp
    (fun k => reached_relayNode p (calls k) (hnode k).1 (hnode k).2)
    n fuel 0 _ hfuel (created_wakeFrame s0 p fc st n buf0 hp hbuf)

theorem relay_chain_bounded_witness :
    (relayChain (fun _ => runCalls State.init [Call.enable scenarioConfig]) 10 0
        (createMagicPacket scenarioEnabled 0xFFFF 0xFFFF 0x1234 (List.replicate 12 0)
          ⟨1, 0, 3⟩).2).map (fun r => txPayloads r.events)
      = (List.range 3).map (fun k => [some ⟨1, 0, 3 - (k + 1)⟩]) ++ [[]] :=
  (relay_chain_bounded 0x1234 3 1 0 (by decide) (by decide) scenarioEnabled
    (List.replicate 12 0) (by decide) (fun _ => [Call.enable scenarioConfig])
    (fun _ =>
      ⟨(by decide : (runCalls State.init [Call.enable scenarioConfig]).filterEnabled_g ≠ 0),
        (by decide : (runCalls State.init [Call.enable scenarioConfig]).panId_g = 0x1234)⟩)
    10 (by decide)).2.2.1

/-- C18: on an enabled filter an accepted frame with time-to-live `t > 0` comes back with
byte 11 equal to `t - 1` and every other byte as it was, and the WAKE_RX payload is the
relayed payload (frame counter, status, `t - 1`); an accepted frame with time-to-live 0
comes back unchanged and its WAKE_RX payload is the received payload; a dropped frame
comes back unchanged. -/
theorem decode_decrements_in_place (s : State) (buf : List Nat)
    (hen : s.filterEnabled_g ≠ 0) (hlen : 12 ≤ buf.length) (hsz : s.sized) :
    ((decodeMagicPacket s buf).ret = MAGIC_PACKET_SUCCESS → 0 < rd8 buf 11 →
        (decodeMagicPacket s buf).packetBuffer = buf.set 11 (rd8 buf 11 - 1)
          ∧ rd8 (decodeMagicPacket s buf).packetBuffer 11 = rd8 buf 11 - 1
          ∧ wakePayloads (decodeMagicPacket s buf).events
              = [some ⟨rd8 buf 9, rd8 buf 10, rd8 buf 11 - 1⟩]
          ∧ wakePayloads (decodeMagicPacket s buf).events
              = txPayloads (decodeMagicPacket s buf).events)
      ∧ ((decodeMagicPacket s buf).ret = MAGIC_PACKET_SUCCESS → rd8 buf 11 = 0 →
          (decodeMagicPacket s buf).packetBuffer = buf
            ∧ wakePayloads (decodeMagicPacket s buf).events
                = [some ⟨rd8 buf 9, rd8 buf 10, rd8 buf 11⟩])
      ∧ ((decodeMagicPacket s buf).ret = MAGIC_PACKET_ERROR_DROPPED →
          (decodeMagicPacket s buf).packetBuffer = buf) := by
  have htx : 13 ≤ s.txBuffer.length := by
    rw [hsz.1]
    decide
  have hev : 3 ≤ s.eventBuffer.length := by
    rw [hsz.2]
    decide
  refine ⟨?_, ?_, ?_⟩
  · intro hret ht
    have hacc := accept_of_success s buf hen hret
    rw [decode_accept_relay s buf hen hacc ht hlen htx]
    refine ⟨rfl, rd8_set_eq buf 11 _ (by omega), ?_, ?_⟩
    · simp only [wakePayloads, callsOf, List.filter, decide_True, decide_False, List.map,
        Option.map, wake_snapshot _ _ hev, relayedPayload]
    · simp only [wakePayloads, callsOf, List.filter, decide_True, decide_False, List.map,
        Option.map, wake_snapshot _ _ hev]
      simp only [txPayloads, callsOf, List.filter, decide_True, decide_False,
        List.map, Option.map, relayedPayload, txFrame, relayImage,
        List.cons_append, List.drop_succ_cons, List.drop_zero, payloadAt, rd8,
        HEADER_802154_LENGTH, List.getD_cons_zero, List.getD_cons_succ]
  · intro hret ht
    have hacc := accept_of_success s buf hen hret
    rw [decode_accept_no_relay s buf hen hacc ht]
    refine ⟨rfl, ?_⟩
    simp only [wakePayloads, callsOf, List.filter, decide_True, decide_False, List.map,
      Option.map, wake_snapshot _ _ hev, payloadAt_eta]
  · intro hret
    rw [decode_dropped s buf hen (not_accept_of_dropped s buf hen hret)]

theorem decode_decrements_in_place_witness :
    (scenarioDecoded 3).packetBuffer = (scenarioCreated 3).2.set 11 2
      ∧ wakePayloads (scenarioDecoded 3).events = [some ⟨1, 0, 2⟩]
      ∧ (scenarioDecoded 0).packetBuffer = (scenarioCreated 0).2 := by
  have h3 := (decode_decrements_in_place (scenarioCreated 3).1 (scenarioCreated 3).2
    (by decide) (by decide) (scenarioCreated_sized 3)).1 (by decide) (by decide)
  have h0 := (decode_decrements_in_place (scenarioCreated 0).1 (scenarioCreated 0).2
    (by decide) (by decide) (scenarioCreated_sized 0)).2.1 (by decide) (by decide)
  exact ⟨h3.1, h3.2.2.1, h0.1⟩

/-- C19: the tracker written on reception and the counter incremented on transmission are
one variable: for an accepted frame with sequence number `n` and a positive time-to-live
the relayed frame carries `(n + 1) % 256` and the counter is `(n + 1) % 256` after the
call; with time-to-live 0 the counter is `n`. -/
theorem relay_sequence_number (s : State) (buf : List Nat)
    (hen : s.filterEnabled_g ≠ 0)
    (hret : (decodeMagicPacket s buf).ret = MAGIC_PACKET_SUCCESS)
    (hlen : 12 ≤ buf.length) (hsz : s.sized) :
    (0 < rd8 buf 11 →
        (callsOf MAGIC_PACKET_EVENT_TX (decodeMagicPacket s buf).events).map
            (fun e => e.data.map (fun d => (headerAt (txFrame d)).seqNumber))
          = [some ((rd8 buf 2 + 1) % 256)]
          ∧ (decodeMagicPacket s buf).state.header154LastFC_g = (rd8 buf 2 + 1) % 256)
      ∧ (rd8 buf 11 = 0 →
          (decodeMagicPacket s buf).state.header154LastFC_g = rd8 buf 2) := by
  have hacc := accept_of_success s buf hen hret
  have htx : 13 ≤ s.txBuffer.length := by
    rw [hsz.1]
    decide
  constructor
  · intro ht
    rw [decode_accept_relay s buf hen hacc ht hlen htx]
    refine ⟨?_, rfl⟩
    simp only [callsOf, List.filter, decide_True, decide_False, List.map, Option.map, txFrame,
      relayImage, List.cons_append, List.drop_succ_cons, List.drop_zero, headerAt, rd8,
      HEADER_802154_SEQ_SHIFT, List.getD_cons_zero, List.getD_cons_succ]
  · intro ht
    rw [decode_accept_no_relay s buf hen hacc ht]

theorem relay_sequence_number_witness :
    (callsOf MAGIC_PACKET_EVENT_TX (scenarioDecoded 3).events).map
        (fun e => e.data.map (fun d => (headerAt (txFrame d)).seqNumber))
      = [some ((rd8 (scenarioCreated 3).2 2 + 1) % 256)]
      ∧ (scenarioDecoded 3).state.header154LastFC_g = (rd8 (scenarioCreated 3).2 2 + 1) % 256
      ∧ (scenarioDecoded 0).state.header154LastFC_g = rd8 (scenarioCreated 0).2 2 :=
  ⟨((relay_sequence_number (scenarioCreated 3).1 (scenarioCreated 3).2
      (by decide) (by decide) (by decide) (scenarioCreated_sized 3)).1 (by decide)).1,
    ((relay_sequence_number (scenarioCreated 3).1 (scenarioCreated 3).2
      (by decide) (by decide) (by decide) (scenarioCreated_sized 3)).1 (by decide)).2,
    (relay_sequence_number (scenarioCreated 0).1 (scenarioCreated 0).2
      (by decide) (by decide) (by decide) (scenarioCreated_sized 0)).2 (by decide)⟩

/-- C20: on an enabled filter a call of `decodeMagicPacket` that returns DROPPED makes no
callback and leaves the configuration, the freshness tracker, both scratch buffers and
the caller's buffer as they were; the one thing it changes is the sequence counter, which
now holds byte 2 of the dropped frame, so that the next `createMagicPacket` writes that
byte plus one modulo 256 as its sequence number. -/
theorem dropped_frame_effect (s : State) (buf : List Nat)
    (hen : s.filterEnabled_g ≠ 0)
    (hret : (decodeMagicPacket s buf).ret = MAGIC_PACKET_ERROR_DROPPED) :
    (decodeMagicPacket s buf).events = []
      ∧ (decodeMagicPacket s buf).state.filterConfig = s.filterConfig
      ∧ (decodeMagicPacket s buf).state.magicPacketLastFC_g = s.magicPacketLastFC_g
      ∧ (decodeMagicPacket s buf).state.txBuffer = s.txBuffer
      ∧ (decodeMagicPacket s buf).state.eventBuffer = s.eventBuffer
      ∧ (decodeMagicPacket s buf).packetBuffer = buf
      ∧ (decodeMagicPacket s buf).state.header154LastFC_g = rd8 buf 2
      ∧ (decodeMagicPacket s buf).state = { s with header154LastFC_g := rd8 buf 2 }
      ∧ (∀ (src dst pan : Nat) (out : List Nat) (p : MagicPacketPayload_t),
          12 ≤ out.length →
          rd8 (createMagicPacket (decodeMagicPacket s buf).state src dst pan out p).2 2
            = (rd8 buf 2 + 1) % 256) := by
  rw [decode_dropped s buf hen (not_accept_of_dropped s buf hen hret)]
  refine ⟨rfl, rfl, rfl, rfl, rfl, rfl, rfl, rfl, ?_⟩
  intro src dst pan out p hout
  rw [createMagicPacket_seq_byte _ src dst pan out p hout]

theorem dropped_frame_effect_witness :
    (decodeMagicPacket scenarioEnabled [0, 0, 7, 0, 0, 0, 0, 0, 0, 0, 0, 0]).state
        = { scenarioEnabled with header154LastFC_g := 7 }
      ∧ rd8 (createMagicPacket
          (decodeMagicPacket scenarioEnabled [0, 0, 7, 0, 0, 0, 0, 0, 0, 0, 0, 0]).state
          0xFFFF 0xFFFF 0x1234 (List.replicate 12 0) ⟨1, 0, 3⟩).2 2 = 8 :=
  ⟨(dropped_frame_effect scenarioEnabled [0, 0, 7, 0, 0, 0, 0, 0, 0, 0, 0, 0]
      (by decide) (by decide)).2.2.2.2.2.2.2.1,
    (dropped_frame_effect scenarioEnabled [0, 0, 7, 0, 0, 0, 0, 0, 0, 0, 0, 0]
      (by decide) (by decide)).2.2.2.2.2.2.2.2 0xFFFF 0xFFFF 0x1234 (List.replicate 12 0)
      ⟨1, 0, 3⟩ (by decide)⟩

end MagicPacket
